import Mathlib

/-
Verification of the keytiles/lib-errorhandling-golang error model
(package kt_errors: fault.go, fault_builder.go, util_funcs.go).

Two embeddings are developed:

* a value-level embedding (namespace KE) in which Go maps are association
  lists carried by value; it is faithful for every observable computation
  that does not depend on map aliasing, and it models Go panics
  (nil-pointer dereference, assignment to a nil map, method call on a nil
  interface) as an `Option` result being `none`;

* a reference-level embedding (namespace KEH) in which Go maps live in an
  explicit heap and struct fields hold map references, so that the
  aliasing behaviour of `FaultBuilder.Build`, `AddContextToAudienceMessage`
  and the two JSON serializers is captured exactly.

External collaborator functions (kt_utils string helpers, the ktsets set
type) are not part of this repository; they are modelled from the spec as
marked on each definition.
-/

namespace KE

/-- Closed sum of label values; the Go field type is `any`, the spec
(Design notes) sanctions a closed serializable sum. -/
inductive GoValue : Type where
  | str : String → GoValue
  | int : Int → GoValue
  | bool : Bool → GoValue
deriving DecidableEq, Repr

/-- Textual representation of a label value, as used by template
resolution (Go renders the value with its default formatting). -/
def GoValue.asText : GoValue → String
  | .str s => s
  | .int n => toString n
  | .bool b => if b then "true" else "false"

/-- A Go `map[string]string` value (content only). -/
abbrev StrMap := List (String × String)

/-- A Go `map[string]any` value (content only). -/
abbrev LblMap := List (String × GoValue)

/-- Lookup in a string-valued map. -/
def mapGetS : StrMap → String → Option String
  | [], _ => none
  | (k0, v0) :: rest, k => if k0 = k then some v0 else mapGetS rest k

/-- Lookup in a label map. -/
def mapGetL : LblMap → String → Option GoValue
  | [], _ => none
  | (k0, v0) :: rest, k => if k0 = k then some v0 else mapGetL rest k

/-- Go map assignment `m[k] = v`: replace the value in place when the key
exists, otherwise add the entry. -/
def mapInsertS : StrMap → String → String → StrMap
  | [], k, v => [(k, v)]
  | (k0, v0) :: rest, k, v =>
      if k0 = k then (k0, v) :: rest else (k0, v0) :: mapInsertS rest k v

/-- Go map assignment `m[k] = v` for label maps. -/
def mapInsertL : LblMap → String → GoValue → LblMap
  | [], k, v => [(k, v)]
  | (k0, v0) :: rest, k, v =>
      if k0 = k then (k0, v) :: rest else (k0, v0) :: mapInsertL rest k v

/-- Go `delete(m, k)` for string-valued maps. -/
def mapDeleteS : StrMap → String → StrMap
  | [], _ => []
  | (k0, v0) :: rest, k => if k0 = k then mapDeleteS rest k else (k0, v0) :: mapDeleteS rest k

/-- Go `delete(m, k)` for label maps. -/
def mapDeleteL : LblMap → String → LblMap
  | [], _ => []
  | (k0, v0) :: rest, k => if k0 = k then mapDeleteL rest k else (k0, v0) :: mapDeleteL rest k

/-- Keys of a string-valued map. -/
def keysS (m : StrMap) : List String := m.map Prod.fst

/-- Keys of a label map. -/
def keysL (m : LblMap) : List String := m.map Prod.fst

/-- Go `maps.Copy(dst, src)`: merge `src` into `dst`, overwriting on key
collision. -/
def mapsCopyS (dst src : StrMap) : StrMap :=
  src.foldl (fun m p => mapInsertS m p.1 p.2) dst

/-- Go `maps.Copy(dst, src)` for label maps. -/
def mapsCopyL (dst src : LblMap) : LblMap :=
  src.foldl (fun m p => mapInsertL m p.1 p.2) dst

/-- Modelled from the spec: the external ktsets set collaborator, as an
insertion-ordered duplicate-free list of strings. Adding an element that
is already present is a no-op. -/
def setAdd (s : List String) (x : String) : List String :=
  if x ∈ s then s else s ++ [x]

/-- Modelled from the spec: ktsets `AddAll`. -/
def setAddAll (s : List String) (xs : List String) : List String :=
  xs.foldl setAdd s

/-- Modelled from the spec: ktsets `Union` (in-place union, returns the
union as the new contents of the receiver). -/
def setUnion (s t : List String) : List String := setAddAll s t

/-- Modelled from the spec: ktsets `ContainsAny`. -/
def setContainsAny (s : List String) (xs : List String) : Bool :=
  xs.any (fun x => decide (x ∈ s))

/-- Modelled from the spec: ktsets `RemoveAll`. -/
def setRemoveAll (s : List String) (xs : List String) : List String :=
  s.filter (fun x => decide (x ∉ xs))

/-- Modelled from the spec: scanner state for the `{name}` template
scanner of the kt_utils string helpers.  The accumulator holds the
reversed characters of a currently open `{name}` token. -/
def extractAux : List Char → Option (List Char) → List String
  | [], _ => []
  | c :: rest, none =>
      if c = '{' then extractAux rest (some []) else extractAux rest none
  | c :: rest, some acc =>
      if c = '}' then String.mk acc.reverse :: extractAux rest none
      else if c = '{' then extractAux rest (some [])
      else extractAux rest (some (c :: acc))

/-- Modelled from the spec: kt_utils `StringExtractVariableNames` — the set
of `{name}` placeholder names occurring in a template. -/
def StringExtractVariableNames (s : String) : List String :=
  setAddAll [] (extractAux s.data none)

/-- Modelled from the spec: resolver core.  A `{name}` token whose name is
a key of the label map is substituted by the label value's text; any other
token (including an unmatched open brace) passes through verbatim. -/
def resolveAux (labels : LblMap) : List Char → Option (List Char) → List Char
  | [], none => []
  | [], some acc => '{' :: acc.reverse
  | c :: rest, none =>
      if c = '{' then resolveAux labels rest (some [])
      else c :: resolveAux labels rest none
  | c :: rest, some acc =>
      if c = '}' then
        match mapGetL labels (String.mk acc.reverse) with
        | some v => v.asText.data ++ resolveAux labels rest none
        | none => '{' :: acc.reverse ++ '}' :: resolveAux labels rest none
      else if c = '{' then
        '{' :: acc.reverse ++ resolveAux labels rest (some [])
      else resolveAux labels rest (some (c :: acc))

/-- Modelled from the spec: kt_utils `StringSimpleResolve` — substitute
`{name}` placeholders from the label map, leaving unknown placeholders
verbatim. -/
def StringSimpleResolve (s : String) (labels : LblMap) : String :=
  String.mk (resolveAux labels s.data none)

/-- Go `strings.TrimRight(s, " \t\r\n-:")` as used by
`AddContextToAudienceMessage`. -/
def trimRightCtx (s : String) : String :=
  String.mk ((s.data.reverse.dropWhile
    (fun c => c = ' ' ∨ c = '\t' ∨ c = '\r' ∨ c = '\n' ∨ c = '-' ∨ c = ':')).reverse)

mutual

/-- A Go `error` value as it can reach this library: either a `Fault`
(whose interface value may wrap a nil `*defaultFault` pointer, hence the
inner `Option`) or an arbitrary foreign error, represented by its message. -/
inductive GoErr : Type where
  | ktFault : Option DFault → GoErr
  | generic : String → GoErr

/-- The `defaultFault` struct of fault.go, carried by value.  Field
order matches the source: Kind, MessageTemplate, MessageTemplatesByAudience
(nil map as `none`), Retryable, ErrorCodes (nil slice as `none`), Labels
(nil map as `none`), public, cause, callStack.  The unused `properties`
field is omitted. -/
inductive DFault : Type where
  | mk : String → String → Option StrMap → Bool → Option (List String) →
         Option LblMap → Bool → Option GoErr → List String → DFault

end

/-- The `Kind` field. -/
def DFault.Kind : DFault → String
  | .mk k _ _ _ _ _ _ _ _ => k

/-- The `MessageTemplate` field. -/
def DFault.MessageTemplate : DFault → String
  | .mk _ m _ _ _ _ _ _ _ => m

/-- The `MessageTemplatesByAudience` field (`none` = nil map). -/
def DFault.Aud : DFault → Option StrMap
  | .mk _ _ a _ _ _ _ _ _ => a

/-- The `Retryable` field. -/
def DFault.Retryable : DFault → Bool
  | .mk _ _ _ r _ _ _ _ _ => r

/-- The `ErrorCodes` field (`none` = nil slice). -/
def DFault.ErrorCodes : DFault → Option (List String)
  | .mk _ _ _ _ e _ _ _ _ => e

/-- The `Labels` field (`none` = nil map). -/
def DFault.Labels : DFault → Option LblMap
  | .mk _ _ _ _ _ l _ _ _ => l

/-- The unexported `public` field. -/
def DFault.publicFlag : DFault → Bool
  | .mk _ _ _ _ _ _ p _ _ => p

/-- The unexported `cause` field. -/
def DFault.causeOf : DFault → Option GoErr
  | .mk _ _ _ _ _ _ _ c _ => c

/-- The unexported `callStack` field. -/
def DFault.callStack : DFault → List String
  | .mk _ _ _ _ _ _ _ _ s => s

/-- Field update for `MessageTemplate`. -/
def DFault.setMessageTemplate : DFault → String → DFault
  | .mk k _ a r e l p c s, m => .mk k m a r e l p c s

/-- Field update for `MessageTemplatesByAudience`. -/
def DFault.setAud : DFault → Option StrMap → DFault
  | .mk k m _ r e l p c s, a => .mk k m a r e l p c s

/-- Field update for `Retryable`. -/
def DFault.setRetryable : DFault → Bool → DFault
  | .mk k m a _ e l p c s, r => .mk k m a r e l p c s

/-- Field update for `ErrorCodes`. -/
def DFault.setErrorCodes : DFault → Option (List String) → DFault
  | .mk k m a r _ l p c s, e => .mk k m a r e l p c s

/-- Field update for `Labels`. -/
def DFault.setLabels : DFault → Option LblMap → DFault
  | .mk k m a r e _ p c s, l => .mk k m a r e l p c s

/-- Field update for `public`. -/
def DFault.setPublic : DFault → Bool → DFault
  | .mk k m a r e l _ c s, p => .mk k m a r e l p c s

/-- Field update for `cause`. -/
def DFault.setCause : DFault → Option GoErr → DFault
  | .mk k m a r e l p _ s, c => .mk k m a r e l p c s

/-- Field update for `callStack`. -/
def DFault.setCallStack : DFault → List String → DFault
  | .mk k m a r e l p c _, s => .mk k m a r e l p c s

/-- The `FaultKind` constants of fault.go. -/
def RuntimeFault : String := "runtime"

/-- The `IllegalStateFault` kind constant. -/
def IllegalStateFault : String := "illegal_state"

/-- The `NotImplementedFault` kind constant. -/
def NotImplementedFault : String := "not_implemented"

/-- The `ValidationFault` kind constant. -/
def ValidationFault : String := "validation"

/-- The `ConstraintViolationFault` kind constant. -/
def ConstraintViolationFault : String := "constraint_violation"

/-- The `ResourceNotFoundFault` kind constant. -/
def ResourceNotFoundFault : String := "resource_not_found"

/-- The `AuthenticationFault` kind constant. -/
def AuthenticationFault : String := "authentication"

/-- The `AuthorizationFault` kind constant. -/
def AuthorizationFault : String := "authorization"

/-- The `ERRCODE_INTERNAL_ERROR` constant. -/
def ERRCODE_INTERNAL_ERROR : String := "internal"

/-- The `CONSTRAINTVIOLATION_ERRCODE_ID_ALREADY_TAKEN` constant. -/
def ERRCODE_ID_ALREADY_TAKEN : String := "id_already_taken"

/-- The `CONSTRAINTVIOLATION_ERRCODE_ALREADY_EXIST` constant. -/
def ERRCODE_ALREADY_EXIST : String := "already_exists"

/-- The `CONSTRAINTVIOLATION_ERRCODE_DOES_NOT_EXIST` constant. -/
def ERRCODE_DOES_NOT_EXIST : String := "not_exists"

/-- The `ILLEGALSTATE_ERRCODE_DEPENDENCY_UNAVAILABLE` constant. -/
def ERRCODE_DEPENDENCY_UNAVAILABLE : String := "unavailable_dependency"

/-- The `ILLEGALSTATE_ERRCODE_TIMED_OUT` constant. -/
def ERRCODE_TIMED_OUT : String := "timed_out"

/-- The `ILLEGALSTATE_ERRCODE_EXHAUSTED` constant. -/
def ERRCODE_EXHAUSTED : String := "exhausted"

/-- The `ILLEGALSTATE_ERRCODE_EXCPECTATION_FAILED` constant. -/
def ERRCODE_EXPECTATION_FAILED : String := "expectation_failed"

/-- The `AUTHENTICATION_ERRCODE_MISSING` constant. -/
def AUTHENTICATION_ERRCODE_MISSING : String := "auth_data_missing"

/-- The `AUTHENTICATION_ERRCODE_NOT_SUPPORTED` constant. -/
def AUTHENTICATION_ERRCODE_NOT_SUPPORTED : String := "auth_method_not_supported"

/-- The `AUTHORIZATION_NO_PERMISSION` constant. -/
def AUTHORIZATION_NO_PERMISSION : String := "no_permission"

/-- The `MSGAUDIENCE_USER` reserved audience name. -/
def MSGAUDIENCE_USER : String := "user"

/-- A `Fault`-typed Go reference: `none` models the nil `*defaultFault`
pointer; every pointer-receiver method below takes this type, mirroring
the nil guards of fault.go. -/
abbrev FaultRef := Option DFault

/-- A `Fault` interface value: the outer `none` is the nil interface,
`some fref` an interface wrapping the (possibly nil) pointer `fref`. -/
abbrev FaultIface := Option FaultRef

/-- defaultFault.GetKind with its nil guard. -/
def GetKind : FaultRef → String
  | none => ""
  | some f => f.Kind

/-- defaultFault.GetMessageTemplate with its nil guard. -/
def GetMessageTemplate : FaultRef → String
  | none => ""
  | some f => f.MessageTemplate

/-- defaultFault.GetMessage: resolves the template from the labels
(a nil fault or nil labels resolve against the empty map). -/
def GetMessage : FaultRef → String
  | none => ""
  | some f => StringSimpleResolve f.MessageTemplate (f.Labels.getD [])

/-- defaultFault.GetMessageTemplateForAudience: empty string when the
fault or its audience map is nil or the audience is absent. -/
def GetMessageTemplateForAudience (fref : FaultRef) (forAudience : String) : String :=
  match fref with
  | none => ""
  | some f =>
    match f.Aud with
    | none => ""
    | some m => (mapGetS m forAudience).getD ""

/-- defaultFault.GetMessageForAudience. -/
def GetMessageForAudience (fref : FaultRef) (forAudience : String) : String :=
  match fref with
  | none => ""
  | some f =>
    match f.Aud with
    | none => ""
    | some _ =>
      StringSimpleResolve (GetMessageTemplateForAudience fref forAudience) (f.Labels.getD [])

/-- defaultFault.GetMessageTemplatesByAudience: always a (copied) map,
empty when the fault or its audience map is nil. -/
def GetMessageTemplatesByAudience : FaultRef → StrMap
  | none => []
  | some f => f.Aud.getD []

/-- defaultFault.IsPublic with its nil guard. -/
def IsPublic : FaultRef → Bool
  | none => false
  | some f => f.publicFlag

/-- defaultFault.IsRetryable with its nil guard. -/
def IsRetryable : FaultRef → Bool
  | none => false
  | some f => f.Retryable

/-- defaultFault.GetErrorCodes: always a (copied) slice, empty when the
fault or its code slice is nil. -/
def GetErrorCodes : FaultRef → List String
  | none => []
  | some f => f.ErrorCodes.getD []

/-- defaultFault.HasErrorCode: true when the fault carries any of the
given codes. -/
def HasErrorCode (fref : FaultRef) (codes : List String) : Bool :=
  match fref with
  | none => false
  | some f =>
    match f.ErrorCodes with
    | none => false
    | some cs => codes.any (fun c => decide (c ∈ cs))

/-- defaultFault.GetCause with its nil guard. -/
def GetCause : FaultRef → Option GoErr
  | none => none
  | some f => f.causeOf

/-- defaultFault.GetLabels: always a (copied) map. -/
def GetLabels : FaultRef → LblMap
  | none => []
  | some f => f.Labels.getD []

/-- defaultFault.GetLabel. -/
def GetLabel (fref : FaultRef) (key : String) : Option GoValue × Bool :=
  match fref with
  | none => (none, false)
  | some f =>
    match f.Labels with
    | none => (none, false)
    | some m =>
      if key = "" then (none, false)
      else
        match mapGetL m key with
        | some v => (some v, true)
        | none => (none, false)

/-- defaultFault.GetSource. -/
def GetSource : FaultRef → String
  | none => ""
  | some f =>
    match f.callStack with
    | [] => ""
    | c :: _ => c

/-- defaultFault.GetCallStack: reversed copy of the stored stack. -/
def GetCallStack : FaultRef → List String
  | none => []
  | some f => f.callStack.reverse

/-- defaultFault.AddCallerToCallStack (in-place append, value rendering). -/
def AddCallerToCallStack (fref : FaultRef) (caller : List String) : FaultRef :=
  match fref with
  | none => none
  | some f => some (f.setCallStack (f.callStack ++ [String.intercalate "." caller]))

/-- defaultFault.AddContextToMessage. -/
def AddContextToMessage (fref : FaultRef) (ctxMsg : String) : FaultRef :=
  match fref with
  | none => none
  | some f => if ctxMsg ≠ "" then some (f.setMessageTemplate (ctxMsg ++ f.MessageTemplate)) else some f

/-- defaultFault.AddContextToAudienceMessage.  The result is `none` when
the call panics: with both arguments non-empty and a nil audience map the
source assigns into the nil map (there is no lazy `make` in this method),
which is a runtime panic in Go. -/
def AddContextToAudienceMessage (fref : FaultRef) (forAudience ctxMsg : String) :
    Option FaultRef :=
  match fref with
  | none => some none
  | some f =>
    if ctxMsg ≠ "" ∧ forAudience ≠ "" then
      match f.Aud with
      | some m =>
        match mapGetS m forAudience with
        | some msg => some (some (f.setAud (some (mapInsertS m forAudience (ctxMsg ++ msg)))))
        | none => some (some (f.setAud (some (mapInsertS m forAudience (trimRightCtx ctxMsg)))))
      | none => none
    else some (some f)

/-- defaultFault.AddErrorCodes: lazily creates the slice, appends each
non-empty code not already present. -/
def AddErrorCodes (fref : FaultRef) (cs : List String) : FaultRef :=
  match fref with
  | none => none
  | some f =>
    let start := f.ErrorCodes.getD []
    let final := cs.foldl
      (fun acc c => if c ≠ "" ∧ c ∉ acc then acc ++ [c] else acc) start
    some (f.setErrorCodes (some final))

/-- defaultFault.AddLabel: lazily creates the map; a no-op for an empty
key. -/
def AddLabel (fref : FaultRef) (key : String) (value : GoValue) : FaultRef :=
  match fref with
  | none => none
  | some f =>
    if key ≠ "" then some (f.setLabels (some (mapInsertL (f.Labels.getD []) key value)))
    else some f

/-- defaultFault.AddLabels: lazily creates the map and merges. -/
def AddLabels (fref : FaultRef) (labels : Option LblMap) : FaultRef :=
  match fref with
  | none => none
  | some f =>
    match labels with
    | none => some f
    | some m => some (f.setLabels (some (mapsCopyL (f.Labels.getD []) m)))

/-- Modelled from the spec: kt_utils `PrintVarS` rendering of a label map
(only used inside the string forms; no theorem depends on its exact text). -/
def printLabels (m : LblMap) : String :=
  "map[" ++ String.intercalate " " (m.map (fun p => p.1 ++ ":" ++ p.2.asText)) ++ "]"

/-- Modelled from the spec: kt_utils `PrintVarS` rendering of a
string-valued map. -/
def printStrMap (m : StrMap) : String :=
  "map[" ++ String.intercalate " " (m.map (fun p => p.1 ++ ":" ++ p.2)) ++ "]"

/-- Rendering of the error-code slice inside Error()/String():
`['a','b']`, or `[]` when empty. -/
def printCodes (cs : List String) : String :=
  if cs.length > 0 then
    "[\x27" ++ String.intercalate "\x27,\x27" cs ++ "\x27]"
  else "[]"

/-- defaultFault.Error.  The method has NO nil guard: `len(fault.ErrorCodes)`
dereferences the receiver, so a nil receiver panics (`none` result). -/
def faultErrorString : FaultRef → Option String
  | none => none
  | some f =>
    let codesStr := printCodes (f.ErrorCodes.getD [])
    if f.publicFlag then
      some (f.Kind ++ ": " ++ GetMessage (some f) ++ " (retryable: " ++
        (if f.Retryable then "true" else "false") ++ ", errorCodes: " ++ codesStr ++
        ", labels: " ++ printLabels (f.Labels.getD []) ++ ")")
    else
      some (f.Kind ++ ": " ++ GetMessage (some f) ++ " (retryable: " ++
        (if f.Retryable then "true" else "false") ++ ", errorCodes: " ++ codesStr ++ ")")

/-- IsFault of util_funcs.go, discrimination part: is the error a Fault? -/
def isFaultB : GoErr → Bool
  | .ktFault _ => true
  | .generic _ => false

/-- IsFault of util_funcs.go, value part: the Fault interface value it
returns (`none` = the nil interface returned for non-Faults). -/
def faultOf : GoErr → FaultIface
  | .ktFault p => some p
  | .generic _ => none

/-- defaultFault.String body for a non-nil receiver; recurses into a Fault
cause the way the source does (via IsFault and ktErr.String()).  The method
has no nil guard, so a nil receiver — also a nil Fault reached through the
cause chain — panics (`none` result). -/
def faultStringD : DFault → Option String
  | .mk k m a r e l p c s =>
    let causeStrO : Option String :=
      match c with
      | none => some "nil"
      | some (.ktFault none) => none
      | some (.ktFault (some df)) =>
        match faultStringD df with
        | none => none
        | some str => some ("\x7b" ++ str ++ "\x7d")
      | some (.generic msg) => some ("\x27" ++ msg ++ "\x27")
    match causeStrO with
    | none => none
    | some causeStr =>
      let codesStr := printCodes (e.getD [])
      let callStackStr :=
        if s.length > 0 then
          "[\x27" ++ String.intercalate "\x27,\x27" s.reverse ++ "\x27]"
        else "[]"
      let audMsgsStr :=
        match a with
        | some am => if am.length > 0 then printStrMap am else "\x7b\x7d"
        | none => "\x7b\x7d"
      let labStr :=
        match l with
        | some lm => if lm.length > 0 then printLabels lm else "\x7b\x7d"
        | none => "\x7b\x7d"
      some ("Fault\x7btype: \x27" ++ k ++ "\x27, msgTemplate: \x27" ++ m ++
        "\x27, retryable: " ++ (if r then "true" else "false") ++
        ", public: " ++ (if p then "true" else "false") ++
        ", codes: " ++ codesStr ++ ", callStack: " ++ callStackStr ++
        ", cause: " ++ causeStr ++ ", audienceMsgs: " ++ audMsgsStr ++
        ", labels: " ++ labStr ++ "\x7d")

/-- defaultFault.String with the (absent) nil guard: a nil receiver
panics. -/
def faultToString : FaultRef → Option String
  | none => none
  | some f => faultStringD f

/-- The FaultBuilder struct: the accumulated fault plus the ktsets-backed
error-code set. -/
structure Builder : Type where
  fault : DFault
  errCodes : List String

/-- newInitializedFault of fault.go: kind set, maps left nil, call stack
empty. -/
def newBlankFault (errType : String) : DFault :=
  .mk errType "" none false none none false none []

/-- NewPublicFaultBuilder of fault_builder.go. -/
def NewPublicFaultBuilder (errType : String) : Builder :=
  { fault := (newBlankFault errType).setPublic true, errCodes := [] }

/-- NewFaultBuilder of fault_builder.go. -/
def NewFaultBuilder (errType : String) : Builder :=
  { fault := (newBlankFault errType).setPublic false, errCodes := [] }

/-- FaultBuilder.Build.  Mirrors the source order: the returned fault is a
copy of the builder's fault taken FIRST (labels deep-copied, error codes
materialised from the set), and only AFTERWARDS the retryable review runs
— mutating the BUILDER's fault, not the copy that is returned.  The
audience-template map is not copied (the struct copy shares it; aliasing
is analysed in the reference model). -/
def Build (b : Builder) : DFault × Builder :=
  let f0 := b.fault
  let f1 :=
    match b.fault.Labels with
    | none => f0
    | some _ => f0.setLabels (some (GetLabels (some b.fault)))
  let f2 := if b.errCodes.length > 0 then f1.setErrorCodes (some b.errCodes) else f1
  let b' :=
    if b.fault.Retryable then
      if b.fault.Kind = AuthenticationFault then
        if setContainsAny b.errCodes
            [AUTHENTICATION_ERRCODE_MISSING, AUTHENTICATION_ERRCODE_NOT_SUPPORTED] then
          { b with fault := b.fault.setRetryable false }
        else b
      else if b.fault.Kind = AuthorizationFault then
        if setContainsAny b.errCodes [AUTHORIZATION_NO_PERMISSION] then
          { b with fault := b.fault.setRetryable false }
        else b
      else b
    else b
  (f2, b')

/-- FaultBuilder.WithIsRetryable: a no-op for the three inherently
non-retryable kinds. -/
def WithIsRetryable (b : Builder) (flag : Bool) : Builder :=
  if b.fault.Kind = NotImplementedFault ∨ b.fault.Kind = ValidationFault ∨
     b.fault.Kind = ResourceNotFoundFault then b
  else { b with fault := b.fault.setRetryable flag }

/-- FaultBuilder.WithMessageTemplate. -/
def WithMessageTemplate (b : Builder) (msg : String) : Builder :=
  { b with fault := b.fault.setMessageTemplate msg }

/-- FaultBuilder.WithMessageTemplateForAudience (lazy map creation). -/
def WithMessageTemplateForAudience (b : Builder) (forAudience msg : String) : Builder :=
  { b with fault := b.fault.setAud (some (mapInsertS (b.fault.Aud.getD []) forAudience msg)) }

/-- FaultBuilder.WithMessageTemplatesByAudience: merge; a no-op for an
empty argument (the map then stays nil). -/
def WithMessageTemplatesByAudience (b : Builder) (templates : StrMap) : Builder :=
  if templates.length = 0 then b
  else { b with fault := b.fault.setAud (some (mapsCopyS (b.fault.Aud.getD []) templates)) }

/-- FaultBuilder.WithCause. -/
def WithCause (b : Builder) (e : Option GoErr) : Builder :=
  { b with fault := b.fault.setCause e }

/-- FaultBuilder.WithErrorCodes (ktsets AddAll). -/
def WithErrorCodes (b : Builder) (cs : List String) : Builder :=
  { b with errCodes := setAddAll b.errCodes cs }

/-- FaultBuilder.WithLabel (delegates to AddLabel; builder's fault is never
nil). -/
def WithLabel (b : Builder) (key : String) (value : GoValue) : Builder :=
  { b with fault := (AddLabel (some b.fault) key value).getD b.fault }

/-- FaultBuilder.WithSource: appends the joined source to the call stack. -/
def WithSource (b : Builder) (src : List String) : Builder :=
  { b with fault := b.fault.setCallStack (b.fault.callStack ++ [String.intercalate "." src]) }

/-- gRPC status code numeral `codes.OK`. -/
def codeOK : Nat := 0

/-- gRPC status code numeral `codes.InvalidArgument`. -/
def codeInvalidArgument : Nat := 3

/-- gRPC status code numeral `codes.NotFound`. -/
def codeNotFound : Nat := 5

/-- gRPC status code numeral `codes.AlreadyExists`. -/
def codeAlreadyExists : Nat := 6

/-- gRPC status code numeral `codes.PermissionDenied`. -/
def codePermissionDenied : Nat := 7

/-- gRPC status code numeral `codes.ResourceExhausted`. -/
def codeResourceExhausted : Nat := 8

/-- gRPC status code numeral `codes.FailedPrecondition`. -/
def codeFailedPrecondition : Nat := 9

/-- gRPC status code numeral `codes.Unimplemented`. -/
def codeUnimplemented : Nat := 12

/-- gRPC status code numeral `codes.Internal`. -/
def codeInternal : Nat := 13

/-- gRPC status code numeral `codes.Unavailable`. -/
def codeUnavailable : Nat := 14

/-- gRPC status code numeral `codes.Unauthenticated`. -/
def codeUnauthenticated : Nat := 16

/-- GetGrpcStatusCodeForFault of util_funcs.go.  The argument is the Fault
interface value (`none` = nil interface). -/
def GetGrpcStatusCodeForFault (fault : FaultIface) : Nat :=
  match fault with
  | none => codeOK
  | some fref =>
    if ¬ IsPublic fref then codeInternal
    else
      let kind := GetKind fref
      if kind = AuthenticationFault then codeUnauthenticated
      else if kind = AuthorizationFault then codePermissionDenied
      else if kind = ResourceNotFoundFault then codeNotFound
      else if kind = ConstraintViolationFault then
        if HasErrorCode fref [ERRCODE_ID_ALREADY_TAKEN] ∨
           HasErrorCode fref [ERRCODE_ALREADY_EXIST] then codeAlreadyExists
        else if HasErrorCode fref [ERRCODE_DOES_NOT_EXIST] then codeNotFound
        else codeFailedPrecondition
      else if kind = ValidationFault then codeInvalidArgument
      else if kind = NotImplementedFault then codeUnimplemented
      else if kind = IllegalStateFault then
        if HasErrorCode fref [ERRCODE_DEPENDENCY_UNAVAILABLE] ∨
           HasErrorCode fref [ERRCODE_TIMED_OUT] then codeUnavailable
        else if HasErrorCode fref [ERRCODE_EXHAUSTED] then codeResourceExhausted
        else if HasErrorCode fref [ERRCODE_EXPECTATION_FAILED] then codeFailedPrecondition
        else codeInternal
      else codeInternal

/-- GetHttpStatusCodeForFault of util_funcs.go. -/
def GetHttpStatusCodeForFault (fault : FaultIface) : Nat :=
  match fault with
  | none => 200
  | some fref =>
    if ¬ IsPublic fref then 500
    else
      let kind := GetKind fref
      if kind = AuthenticationFault then 401
      else if kind = AuthorizationFault then 403
      else if kind = ResourceNotFoundFault then 404
      else if kind = ConstraintViolationFault then
        if HasErrorCode fref [ERRCODE_ID_ALREADY_TAKEN] ∨
           HasErrorCode fref [ERRCODE_ALREADY_EXIST] then 409
        else if HasErrorCode fref [ERRCODE_DOES_NOT_EXIST] then 404
        else 412
      else if kind = ValidationFault then
        400
      else if kind = NotImplementedFault then 501
      else if kind = IllegalStateFault then
        if HasErrorCode fref [ERRCODE_DEPENDENCY_UNAVAILABLE] ∨
           HasErrorCode fref [ERRCODE_EXHAUSTED] ∨
           HasErrorCode fref [ERRCODE_TIMED_OUT] then 503
        else if HasErrorCode fref [ERRCODE_EXPECTATION_FAILED] then 412
        else 500
      else 500

/-- A conversion option of util_funcs.go: either extra log labels (which
only decorate the emitted log event and never influence the returned
Fault) or the whitelisted-kinds option with its inheritErrorCodes flag. -/
inductive ConvOption : Type where
  | logLabels : List (String × String) → ConvOption
  | whitelistedKinds : List String → Bool → ConvOption
deriving DecidableEq, Repr

/-- The option-reading loop of NewPublicFaultFromAnyError: a later option
of the same kind overwrites an earlier one. -/
def readConvOptions (opts : List ConvOption) : List String × Bool :=
  opts.foldl
    (fun acc opt =>
      match opt with
      | .logLabels _ => acc
      | .whitelistedKinds kinds inherit => (kinds, inherit))
    ([], false)

/-- The fixed default message template used when a transaction id is
present. -/
def msgTemplateWithTid : String :=
  "Error occured during processing, details are logged with transactionId \x27{transactionId}\x27"

/-- The fixed default message template used without a transaction id. -/
def msgTemplateNoTid : String :=
  "Error occured during processing, details are logged"

/-- The label-retention loop of NewPublicFaultFromAnyError: for every
label of the original fault whose key is in the needed-variable set, add
it to the builder. -/
def copyNeededLabels (b : Builder) (needed : List String) (labels : LblMap) : Builder :=
  labels.foldl (fun acc p => if p.1 ∈ needed then WithLabel acc p.1 p.2 else acc) b

/-- The needed-variable computation of NewPublicFaultFromAnyError: the
placeholder names of the (possibly empty) promoted user template unioned
with those of every remaining audience template. -/
def collectNeededVars (userTemplate : String) (remaining : StrMap) : List String :=
  remaining.foldl (fun acc p => setUnion acc (StringExtractVariableNames p.2))
    (StringExtractVariableNames userTemplate)

/-- The label map produced by the label-retention loop, expressed at map
level (proof-support definition used to reason about copyNeededLabels). -/
def copiedLabels (m0 : LblMap) (nd : List String) (ls : LblMap) : LblMap :=
  ls.foldl (fun m p => if p.1 ∈ nd ∧ p.1 ≠ "" then mapInsertL m p.1 p.2 else m) m0

/-- A label key is needed by the converted fault's messages: it is a
placeholder of the promoted user template or of a remaining audience
template. -/
def neededForMessages (df : DFault) (ut : String) (k : String) : Prop :=
  k ∈ StringExtractVariableNames ut ∨
    ∃ p ∈ mapDeleteS (df.Aud.getD []) MSGAUDIENCE_USER, k ∈ StringExtractVariableNames p.2

instance (df : DFault) (ut k : String) : Decidable (neededForMessages df ut k) := by
  unfold neededForMessages
  exact inferInstance

/-- The body of NewPublicFaultFromAnyError after the public pass-through
check.  `isF` and `fref` are the results of IsFault; the result is `none`
exactly when the Go code panics: with the inheritErrorCodes flag set and a
non-Fault input, `fault.GetErrorCodes()` is invoked on the nil Fault
interface that IsFault returned.  (The log emission is an external side
effect and does not influence the returned value: the fmt machinery
recovers a panic raised by a nil receiver String call.) -/
def convBody (orig : GoErr) (isF : Bool) (fref : FaultIface) (transactionId : String)
    (opts : List ConvOption) : Option FaultRef :=
  let ro := readConvOptions opts
  let safeKinds := ro.1
  let inheritErrorCodes := ro.2
  let kindWasKept := isF ∧ GetKind (fref.getD none) ∈ safeKinds
  let kind := if kindWasKept then GetKind (fref.getD none) else RuntimeFault
  let b0 := WithCause (NewPublicFaultBuilder kind) (some orig)
  let b1 := if ¬ kindWasKept then WithErrorCodes b0 [ERRCODE_INTERNAL_ERROR] else b0
  let b2O : Option Builder :=
    if inheritErrorCodes then
      match fref with
      | none => none
      | some p => some (WithErrorCodes b1 (GetErrorCodes p))
    else some b1
  match b2O with
  | none => none
  | some b2 =>
    let b3 :=
      if transactionId ≠ "" then
        WithLabel (WithMessageTemplate b2 msgTemplateWithTid) "transactionId"
          (.str transactionId)
      else WithMessageTemplate b2 msgTemplateNoTid
    let b4 :=
      if isF then
        let p := fref.getD none
        let ba := WithIsRetryable b3 (IsRetryable p)
        let audTemplates := GetMessageTemplatesByAudience p
        let userTemplate := (mapGetS audTemplates MSGAUDIENCE_USER).getD ""
        let promoted :=
          if userTemplate.length > 0 then
            (WithMessageTemplate ba userTemplate, mapDeleteS audTemplates MSGAUDIENCE_USER)
          else (ba, audTemplates)
        let bb := promoted.1
        let remaining := promoted.2
        let bc := WithMessageTemplatesByAudience bb remaining
        let needed := collectNeededVars userTemplate remaining
        copyNeededLabels bc needed (GetLabels p)
      else b3
    some (some (Build b4).1)

/-- NewPublicFaultFromAnyError of util_funcs.go.  The outer `Option` is
`none` when the call panics; otherwise the value is the returned Fault
interface (`none` = nil, returned exactly for nil input). -/
def NewPublicFaultFromAnyError (original : Option GoErr) (transactionId : String)
    (opts : List ConvOption) : Option FaultRef :=
  match original with
  | none => some none
  | some orig =>
    let isF := isFaultB orig
    let fref := faultOf orig
    if isF ∧ IsPublic (fref.getD none) then some (fref.getD none)
    else convBody orig isF fref transactionId opts

/-- Proof-support: the builder state of NewPublicFaultFromAnyError for a
(non-public) Fault input right before the transactionId step — cause
attached, the internal error code added when the kind was not whitelisted,
and the original codes inherited when the option asks for it. -/
def convB2 (df : DFault) (opts : List ConvOption) : Builder :=
  let ro := readConvOptions opts
  let kindWasKept := GetKind (some df) ∈ ro.1
  let kind := if kindWasKept then GetKind (some df) else RuntimeFault
  let b0 := WithCause (NewPublicFaultBuilder kind) (some (.ktFault (some df)))
  let b1 := if ¬ kindWasKept then WithErrorCodes b0 [ERRCODE_INTERNAL_ERROR] else b0
  if ro.2 then WithErrorCodes b1 (GetErrorCodes (some df)) else b1

/-- Proof-support: the tail of NewPublicFaultFromAnyError for a Fault
input, starting from the builder state after the error-code phase: the
transactionId step, retryable inheritance, user-template promotion,
audience merge and label retention. -/
def convTail (b2 : Builder) (df : DFault) (tid : String) : Builder :=
  let b3 :=
    if tid ≠ "" then
      WithLabel (WithMessageTemplate b2 msgTemplateWithTid) "transactionId" (.str tid)
    else WithMessageTemplate b2 msgTemplateNoTid
  let ba := WithIsRetryable b3 (IsRetryable (some df))
  let audTemplates := GetMessageTemplatesByAudience (some df)
  let userTemplate := (mapGetS audTemplates MSGAUDIENCE_USER).getD ""
  let promoted :=
    if userTemplate.length > 0 then
      (WithMessageTemplate ba userTemplate, mapDeleteS audTemplates MSGAUDIENCE_USER)
    else (ba, audTemplates)
  let bb := promoted.1
  let remaining := promoted.2
  let bc := WithMessageTemplatesByAudience bb remaining
  let needed := collectNeededVars userTemplate remaining
  copyNeededLabels bc needed (GetLabels (some df))

/-- A serialization option of fault.go. -/
inductive SOpt : Type where
  | resolveMessages : SOpt
  | leaveMessageVarsInLabels : SOpt
  | prettyPrint : SOpt
  | allowNonPublicSerialization : SOpt
deriving DecidableEq, Repr

end KE

namespace KEH

open KE (GoValue StrMap LblMap SOpt mapGetS mapGetL mapInsertS mapInsertL mapDeleteS
  mapDeleteL setUnion StringSimpleResolve StringExtractVariableNames trimRightCtx
  setContainsAny AuthenticationFault AuthorizationFault
  AUTHENTICATION_ERRCODE_MISSING AUTHENTICATION_ERRCODE_NOT_SUPPORTED
  AUTHORIZATION_NO_PERMISSION RuntimeFault)

/-- The heap of the reference model: every Go map value lives in one of
two stores (string maps and label maps), addressed by its index. -/
structure Heap : Type where
  strMaps : List StrMap
  lblMaps : List LblMap
deriving DecidableEq, Repr

/-- Reading a string map through its reference; a dangling reference reads
as empty (never exercised under the validity hypotheses of the theorems). -/
def Heap.readStr (h : Heap) (r : Nat) : StrMap := (h.strMaps.get? r).getD []

/-- Reading a label map through its reference. -/
def Heap.readLbl (h : Heap) (r : Nat) : LblMap := (h.lblMaps.get? r).getD []

/-- Overwriting the string map a reference points to. -/
def Heap.writeStr (h : Heap) (r : Nat) (v : StrMap) : Heap :=
  { h with strMaps := h.strMaps.set r v }

/-- Overwriting the label map a reference points to. -/
def Heap.writeLbl (h : Heap) (r : Nat) (v : LblMap) : Heap :=
  { h with lblMaps := h.lblMaps.set r v }

/-- Allocating a fresh string map (Go `make(map[string]string)`). -/
def Heap.allocStr (h : Heap) (v : StrMap) : Nat × Heap :=
  (h.strMaps.length, { h with strMaps := h.strMaps ++ [v] })

/-- Allocating a fresh label map (Go `make(map[string]any)`). -/
def Heap.allocLbl (h : Heap) (v : LblMap) : Nat × Heap :=
  (h.lblMaps.length, { h with lblMaps := h.lblMaps ++ [v] })

/-- The `defaultFault` struct in the reference model: the two map fields
hold references into the heap (`none` = nil map), slices are carried by
value (they are only ever appended to, never written through, so slice
aliasing is unobservable here), and the cause is an arbitrary value of a
type parameter — no modelled operation ever inspects it. -/
structure DFaultH (κ : Type) : Type where
  Kind : String
  MessageTemplate : String
  AudRef : Option Nat
  Retryable : Bool
  ErrorCodes : Option (List String)
  LabelsRef : Option Nat
  publicFlag : Bool
  cause : Option κ
  callStack : List String
deriving DecidableEq, Repr

/-- The global `_EMPTY_FAULT`'s audience map lives at this reference in a
well-formed heap. -/
def emptyFaultAudRef : Nat := 0

/-- The global `_NONPUBLIC_FAULT`'s audience map reference. -/
def npFaultAudRef : Nat := 1

/-- The global `_EMPTY_NATURAL_FORM`'s label map reference. -/
def emptyNaturalLabelsRef : Nat := 0

/-- The global `_NONPUBLIC_NATURAL_FORM`'s label map reference. -/
def npNaturalLabelsRef : Nat := 1

/-- The global `_EMPTY_FAULT`'s label map reference. -/
def emptyFaultLabelsRef : Nat := 2

/-- The global `_NONPUBLIC_FAULT`'s label map reference. -/
def npFaultLabelsRef : Nat := 3

/-- A heap whose only contents are the four (empty) global maps of
fault.go, in the reference layout above. -/
def baseHeap : Heap := { strMaps := [[], []], lblMaps := [[], [], [], []] }

/-- The observable state of a fault: its struct fields with the two map
references replaced by the map contents they point to.  Serialization must
leave this unchanged. -/
structure FaultState (κ : Type) : Type where
  Kind : String
  MessageTemplate : String
  Aud : Option StrMap
  Retryable : Bool
  ErrorCodes : Option (List String)
  Labels : Option LblMap
  publicFlag : Bool
  cause : Option κ
  callStack : List String
deriving DecidableEq, Repr

/-- Reading off the observable state of a fault under a heap. -/
def faultState {κ : Type} (df : DFaultH κ) (h : Heap) : FaultState κ :=
  { Kind := df.Kind, MessageTemplate := df.MessageTemplate,
    Aud := df.AudRef.map h.readStr, Retryable := df.Retryable,
    ErrorCodes := df.ErrorCodes, Labels := df.LabelsRef.map h.readLbl,
    publicFlag := df.publicFlag, cause := df.cause, callStack := df.callStack }

/-- defaultFault.GetLabels, content part: the value the freshly allocated
copy is initialised with. -/
def getLabelsVal {κ : Type} (df : DFaultH κ) (h : Heap) : LblMap :=
  match df.LabelsRef with
  | none => []
  | some r => h.readLbl r

/-- defaultFault.GetMessage in the reference model. -/
def getMessageH {κ : Type} (df : DFaultH κ) (h : Heap) : String :=
  StringSimpleResolve df.MessageTemplate (getLabelsVal df h)

/-- The raw audience template `fault.MessageTemplatesByAudience[k]` (empty
for a nil map or missing key). -/
def audTemplateH {κ : Type} (df : DFaultH κ) (k : String) (h : Heap) : String :=
  match df.AudRef with
  | none => ""
  | some r => (mapGetS (h.readStr r) k).getD ""

/-- defaultFault.GetMessageForAudience in the reference model. -/
def getMessageForAudienceH {κ : Type} (df : DFaultH κ) (k : String) (h : Heap) : String :=
  match df.AudRef with
  | none => ""
  | some _ => StringSimpleResolve (audTemplateH df k h) (getLabelsVal df h)

/-- The key list `for k := range fault.MessageTemplatesByAudience` iterates
over. -/
def audKeysH {κ : Type} (df : DFaultH κ) (h : Heap) : List String :=
  match df.AudRef with
  | none => []
  | some r => (h.readStr r).map Prod.fst

/-- The `delete(labels, k)` loop the serializers run over the collected
message variables.  Deleting through a nil map reference is a no-op, as in
Go. -/
def deleteVarsLoop (ref : Option Nat) : List String → Heap → Heap
  | [], h => h
  | k :: rest, h =>
    match ref with
    | none => deleteVarsLoop none rest h
    | some r => deleteVarsLoop (some r) rest (h.writeLbl r (mapDeleteL (h.readLbl r) k))

/-- The audience loop of ToFullJSON: for every audience key of the
original fault, write the resolved message into the freshly allocated
destination map and (unless LeaveMessageVarsInLabels) union in the
placeholder names of the raw template, reading through the heap exactly as
the source does. -/
def audResolveLoop {κ : Type} (df : DFaultH κ) (dst : Nat) (leave : Bool) :
    List String → Heap → List String → Heap × List String
  | [], h, vars => (h, vars)
  | k :: rest, h, vars =>
    let h1 := h.writeStr dst (mapInsertS (h.readStr dst) k (getMessageForAudienceH df k h))
    let vars1 :=
      if leave then vars
      else setUnion vars (StringExtractVariableNames (audTemplateH df k h1))
    audResolveLoop df dst leave rest h1 vars1

/-- The marshalled shape of ToNaturalJSON (`naturalFormFault`), with the
map-valued field replaced by the map contents at marshal time.  The
PrettyPrint option only affects whitespace in the emitted bytes, not this
shape. -/
structure NaturalOut : Type where
  Kind : String
  Message : String
  Retryable : Bool
  ErrorCodes : List String
  Labels : LblMap
deriving DecidableEq, Repr

/-- defaultFault.ToNaturalJSON in the reference model: returns the
marshalled shape together with the heap after the call.  This method never
panics (every receiver access in it is nil-guarded). -/
def toNaturalJSONH {κ : Type} (fault : Option (DFaultH κ)) (forAudience : String)
    (options : List SOpt) (h : Heap) : NaturalOut × Heap :=
  match fault with
  | none =>
    ({ Kind := "NaN", Message := "", Retryable := false, ErrorCodes := [],
       Labels := h.readLbl emptyNaturalLabelsRef }, h)
  | some df =>
    if ¬ df.publicFlag ∧ ¬ options.contains SOpt.allowNonPublicSerialization then
      ({ Kind := RuntimeFault, Message := "", Retryable := df.Retryable, ErrorCodes := [],
         Labels := h.readLbl npNaturalLabelsRef }, h)
    else
      let resolve := options.contains SOpt.resolveMessages
      let leave := options.contains SOpt.leaveMessageVarsInLabels
      let codes := df.ErrorCodes.getD []
      let (lref, h1) :=
        if resolve ∧ ¬ leave then h.allocLbl (getLabelsVal df h)
        else
          match df.LabelsRef with
          | some r => (r, h)
          | none => h.allocLbl []
      let (msg, msgVars) :=
        if forAudience = "" then
          if resolve then
            (getMessageH df h1,
             if ¬ leave then StringExtractVariableNames df.MessageTemplate else [])
          else (df.MessageTemplate, [])
        else
          if resolve then
            (getMessageForAudienceH df forAudience h1,
             if ¬ leave then StringExtractVariableNames (audTemplateH df forAudience h1) else [])
          else (audTemplateH df forAudience h1, [])
      let h2 := if msgVars.length > 0 then deleteVarsLoop (some lref) msgVars h1 else h1
      ({ Kind := df.Kind, Message := msg, Retryable := df.Retryable, ErrorCodes := codes,
         Labels := h2.readLbl lref }, h2)

/-- The marshalled shape of ToFullJSON (the exported fields of
`defaultFault`), with map references replaced by the map contents at
marshal time; a `none` map marshals as JSON null, hence the Options. -/
structure FullOut : Type where
  Kind : String
  Message : String
  MessagesByAudience : Option StrMap
  Retryable : Bool
  ErrorCodes : Option (List String)
  Labels : Option LblMap
deriving DecidableEq, Repr

/-- The global `_EMPTY_FAULT` of fault.go in the reference model: kind
"NaN", blank strings, empty (but non-nil) maps at the global cells, empty
non-nil code slice. -/
def emptyFaultH {κ : Type} : DFaultH κ :=
  { Kind := "NaN", MessageTemplate := "", AudRef := some emptyFaultAudRef, Retryable := false,
    ErrorCodes := some [], LabelsRef := some emptyFaultLabelsRef, publicFlag := false,
    cause := none, callStack := [] }

/-- The global `_NONPUBLIC_FAULT` of fault.go in the reference model; note
its Kind is "NaN" just like `_EMPTY_FAULT` (unlike the natural-form
global, whose kind is "runtime"). -/
def npFaultH {κ : Type} : DFaultH κ :=
  { Kind := "NaN", MessageTemplate := "", AudRef := some npFaultAudRef, Retryable := false,
    ErrorCodes := some [], LabelsRef := some npFaultLabelsRef, publicFlag := false,
    cause := none, callStack := [] }

/-- What `json.Marshal` sees of a `defaultFault` value: the exported
fields, with map references dereferenced at marshal time. -/
def marshalFull {κ : Type} (ff : DFaultH κ) (h : Heap) : FullOut :=
  { Kind := ff.Kind, Message := ff.MessageTemplate,
    MessagesByAudience := ff.AudRef.map h.readStr, Retryable := ff.Retryable,
    ErrorCodes := ff.ErrorCodes, Labels := ff.LabelsRef.map h.readLbl }

/-- The body of the `if resolveMessages` block of ToFullJSON: allocate the
fresh audience map `_fault.MessageTemplatesByAudience`, run the audience
loop, then delete the collected variables through `_fault`'s label
reference.  Returns the fresh audience reference and the heap after. -/
def resolveBlock {κ : Type} (df : DFaultH κ) (leave : Bool) (lref : Option Nat)
    (vars0 : List String) (h1 : Heap) : Nat × Heap :=
  let alloc := h1.allocStr []
  let loop := audResolveLoop df alloc.1 leave (audKeysH df alloc.2) alloc.2 vars0
  let h4 := if 0 < loop.2.length then deleteVarsLoop lref loop.2 loop.1 else loop.1
  (alloc.1, h4)

/-- defaultFault.ToFullJSON in the reference model.  The `Option` result is
`none` when the call panics: the ResolveMessages block dereferences the
receiver without a nil guard (`fault.MessageTemplate`,
`fault.MessageTemplatesByAudience`), so a nil fault with ResolveMessages
set panics.  Note that the ResolveMessages block runs even in the
redaction branch, overwriting the blank message and audience map of
`_NONPUBLIC_FAULT` with the RESOLVED REAL messages of the fault. -/
def toFullJSONH {κ : Type} (fault : Option (DFaultH κ)) (options : List SOpt) (h : Heap) :
    Option FullOut × Heap :=
  let resolve := options.contains SOpt.resolveMessages
  let leave := options.contains SOpt.leaveMessageVarsInLabels
  let init : DFaultH κ × Heap :=
    match fault with
    | none => (emptyFaultH, h)
    | some df =>
      if ¬ df.publicFlag ∧ ¬ options.contains SOpt.allowNonPublicSerialization then
        ({ npFaultH with Retryable := df.Retryable }, h)
      else
        if resolve ∧ ¬ leave then
          let p := h.allocLbl (getLabelsVal df h)
          ({ df with LabelsRef := some p.1 }, p.2)
        else (df, h)
  let ff := init.1
  let h1 := init.2
  if resolve then
    match fault with
    | none => (none, h1)
    | some df =>
      let vars0 := if ¬ leave then StringExtractVariableNames df.MessageTemplate else []
      let rb := resolveBlock df leave ff.LabelsRef vars0 h1
      let ff2 := { ff with MessageTemplate := getMessageH df h1, AudRef := some rb.1 }
      (some (marshalFull ff2 rb.2), rb.2)
  else (some (marshalFull ff h1), h1)

/-- The FaultBuilder struct in the reference model. -/
structure BuilderH (κ : Type) : Type where
  fault : DFaultH κ
  errCodes : List String
deriving DecidableEq, Repr

/-- NewFaultBuilder in the reference model: both map fields start nil. -/
def newFaultBuilderH {κ : Type} (errType : String) : BuilderH κ :=
  { fault := { Kind := errType, MessageTemplate := "", AudRef := none, Retryable := false,
               ErrorCodes := none, LabelsRef := none, publicFlag := false, cause := none,
               callStack := [] },
    errCodes := [] }

/-- FaultBuilder.WithMessageTemplateForAudience in the reference model:
lazily allocates the audience map, then assigns into it. -/
def withMessageTemplateForAudienceH {κ : Type} (b : BuilderH κ) (forAudience msg : String)
    (h : Heap) : BuilderH κ × Heap :=
  match b.fault.AudRef with
  | some r => (b, h.writeStr r (mapInsertS (h.readStr r) forAudience msg))
  | none =>
    let (r, h1) := h.allocStr []
    ({ b with fault := { b.fault with AudRef := some r } },
     h1.writeStr r (mapInsertS (h1.readStr r) forAudience msg))

/-- FaultBuilder.WithIsRetryable in the reference model. -/
def withIsRetryableH {κ : Type} (b : BuilderH κ) (flag : Bool) : BuilderH κ :=
  if b.fault.Kind = KE.NotImplementedFault ∨ b.fault.Kind = KE.ValidationFault ∨
     b.fault.Kind = KE.ResourceNotFoundFault then b
  else { b with fault := { b.fault with Retryable := flag } }

/-- FaultBuilder.Build in the reference model.  The struct copy is taken
first (so the audience-map REFERENCE is shared between builder and built
fault); the label map alone is deep-copied into a fresh cell; the
retryable review then mutates the builder's fault. -/
def buildH {κ : Type} (b : BuilderH κ) (h : Heap) : DFaultH κ × BuilderH κ × Heap :=
  let f0 := b.fault
  let (f1, h1) :=
    match b.fault.LabelsRef with
    | none => (f0, h)
    | some r0 =>
      let (r, h') := h.allocLbl (h.readLbl r0)
      ({ f0 with LabelsRef := some r }, h')
  let f2 := if b.errCodes.length > 0 then { f1 with ErrorCodes := some b.errCodes } else f1
  let b' :=
    if b.fault.Retryable then
      if b.fault.Kind = AuthenticationFault then
        if setContainsAny b.errCodes
            [AUTHENTICATION_ERRCODE_MISSING, AUTHENTICATION_ERRCODE_NOT_SUPPORTED] then
          { b with fault := { b.fault with Retryable := false } }
        else b
      else if b.fault.Kind = AuthorizationFault then
        if setContainsAny b.errCodes [AUTHORIZATION_NO_PERMISSION] then
          { b with fault := { b.fault with Retryable := false } }
        else b
      else b
    else b
  (f2, b', h1)

/-- defaultFault.AddContextToAudienceMessage in the reference model: the
mutation happens entirely through the shared audience-map reference.  The
result is `none` when the call panics (non-empty arguments, nil audience
map: the source assigns into the nil map). -/
def addContextToAudienceMessageH {κ : Type} (fault : Option (DFaultH κ))
    (forAudience ctxMsg : String) (h : Heap) : Option Heap :=
  match fault with
  | none => some h
  | some df =>
    if ctxMsg ≠ "" ∧ forAudience ≠ "" then
      match df.AudRef with
      | some r =>
        match mapGetS (h.readStr r) forAudience with
        | some msg => some (h.writeStr r (mapInsertS (h.readStr r) forAudience (ctxMsg ++ msg)))
        | none =>
          some (h.writeStr r (mapInsertS (h.readStr r) forAudience (trimRightCtx ctxMsg)))
      | none => none
    else some h

/-- defaultFault.GetMessageTemplateForAudience in the reference model. -/
def getMessageTemplateForAudienceH {κ : Type} (fault : Option (DFaultH κ)) (forAudience : String)
    (h : Heap) : String :=
  match fault with
  | none => ""
  | some df =>
    match df.AudRef with
    | none => ""
    | some r => (mapGetS (h.readStr r) forAudience).getD ""

end KEH

/-- Fault used by the C1 evaluation: non-public, with a secret default
template, a secret user-audience template and the label that resolves
them. -/
def c1Fault : KEH.DFaultH Unit :=
  { Kind := KE.IllegalStateFault, MessageTemplate := "secret of {v}", AudRef := some 2,
    Retryable := true, ErrorCodes := some ["config_error"], LabelsRef := some 4,
    publicFlag := false, cause := none, callStack := [] }

/-- Heap for the C1 evaluation: the four global cells plus c1Fault's two
maps. -/
def c1Heap : KEH.Heap :=
  { strMaps := [[], [], [("user", "u-secret {v}")]],
    lblMaps := [[], [], [], [], [("v", KE.GoValue.str "X")]] }

/-- The builder of the C2 evaluation: a non-public builder that received
one user-audience template. -/
def c2Start : KEH.BuilderH Unit × KEH.Heap :=
  KEH.withMessageTemplateForAudienceH (KEH.newFaultBuilderH KE.RuntimeFault)
    KE.MSGAUDIENCE_USER ("hello") KEH.baseHeap

/-- First build from the C2 builder. -/
def c2First : KEH.DFaultH Unit × KEH.BuilderH Unit × KEH.Heap :=
  KEH.buildH c2Start.1 c2Start.2

/-- The heap after mutating the BUILT fault (not the builder) in place. -/
def c2HeapMut : KEH.Heap :=
  (KEH.addContextToAudienceMessageH (some c2First.1) KE.MSGAUDIENCE_USER ("ctx - ")
    c2First.2.2).getD KEH.baseHeap

/-- Second build, taken from the untouched builder state after the
mutation of the first fault. -/
def c2Second : KEH.DFaultH Unit × KEH.BuilderH Unit × KEH.Heap :=
  KEH.buildH c2First.2.1 c2HeapMut

/-- The fault of the C8 evaluation: built without any audience template,
so its MessageTemplatesByAudience map is nil (lazy initialisation). -/
def c8Fault : KE.DFault := (KE.Build (KE.NewFaultBuilder KE.RuntimeFault)).1

/-- A fault that does carry an audience map, for the contrast conjuncts. -/
def c8FaultWithAud : KE.DFault :=
  (KE.Build (KE.WithMessageTemplateForAudience (KE.NewFaultBuilder KE.RuntimeFault)
    ("operator") ("msg for operators"))).1

/-- The builder of the C10 counterexample: Authentication kind, retryable
requested, carrying the auth_data_missing code. -/
def c10Builder : KE.Builder :=
  KE.WithErrorCodes (KE.WithIsRetryable (KE.NewFaultBuilder KE.AuthenticationFault) true)
    [KE.AUTHENTICATION_ERRCODE_MISSING]

/-- Fault of the C9 witness. -/
def c9Fault : KEH.DFaultH Unit :=
  { Kind := KE.IllegalStateFault, MessageTemplate := "hi {v}", AudRef := some 2,
    Retryable := true, ErrorCodes := some ["config_error"], LabelsRef := some 4,
    publicFlag := true, cause := none, callStack := [] }

/-- Heap of the C9 witness. -/
def c9Heap : KEH.Heap :=
  { strMaps := [[], [], [("user", "aud {v}")]],
    lblMaps := [[], [], [], [], [("v", KE.GoValue.str "V")]] }

/-- Public ConstraintViolation fault with the already_exists code, for the
C6 witness. -/
def c6FaultConflict : KE.DFault :=
  (KE.Build (KE.WithErrorCodes (KE.NewPublicFaultBuilder KE.ConstraintViolationFault)
    [KE.ERRCODE_ALREADY_EXIST])).1

/-- Public ConstraintViolation fault without refining codes, for the C6
witness. -/
def c6FaultPlain : KE.DFault :=
  (KE.Build (KE.NewPublicFaultBuilder KE.ConstraintViolationFault)).1

/-- Non-public fault for the C6 witness. -/
def c6FaultPrivate : KE.DFault :=
  (KE.Build (KE.NewFaultBuilder KE.ValidationFault)).1

/-- A concrete public fault for the C7 witness. -/
def c7Fault : KE.DFault :=
  (KE.Build (KE.WithLabel (KE.WithMessageTemplate
    (KE.NewPublicFaultBuilder KE.ValidationFault) ("bad value {v}")) ("v")
    (KE.GoValue.str ("x")))).1

/-- A concrete non-public fault whose conversion feeds the idempotence
part of the C7 witness. -/
def c7Source : KE.GoErr :=
  KE.GoErr.ktFault (some ((KE.Build (KE.WithMessageTemplate
    (KE.NewFaultBuilder KE.IllegalStateFault) ("secret"))).1))

/-- Concrete input for the C5 witness: a non-public validation fault with
a user and an operator audience template and three labels, of which only
the two referenced by the surviving templates must be retained. -/
def c5Fault : KE.DFault :=
  KE.DFault.mk "validation" "internal secret {a}"
    (some [("user", "user msg {x}"), ("operator", "op msg {y}")])
    false none
    (some [("x", KE.GoValue.str "X"), ("y", KE.GoValue.str "Y"), ("z", KE.GoValue.str "Z")])
    false none []

/-- Concrete input for the C5 counterexample: a non-public fault whose user
template references a label keyed transactionId and which carries exactly
that label itself, so the retention loop overwrites the injected
transactionId label with the original's value. -/
def c5CexFault : KE.DFault :=
  KE.DFault.mk "validation" "internal {a}"
    (some [("user", "call support with {transactionId}")])
    false none
    (some [("transactionId", KE.GoValue.str "SECRET")])
    false none []

namespace KE

/-- Field calculus: `Kind` after `setMessageTemplate`. -/
@[simp] theorem DFault.Kind_setMessageTemplate (f : DFault) (x) : (f.setMessageTemplate x).Kind = f.Kind := by
  cases f
  rfl

/-- Field calculus: `MessageTemplate` after `setMessageTemplate`. -/
@[simp] theorem DFault.MessageTemplate_setMessageTemplate (f : DFault) (x) : (f.setMessageTemplate x).MessageTemplate = x := by
  cases f
  rfl

/-- Field calculus: `Aud` after `setMessageTemplate`. -/
@[simp] theorem DFault.Aud_setMessageTemplate (f : DFault) (x) : (f.setMessageTemplate x).Aud = f.Aud := by
  cases f
  rfl

/-- Field calculus: `Retryable` after `setMessageTemplate`. -/
@[simp] theorem DFault.Retryable_setMessageTemplate (f : DFault) (x) : (f.setMessageTemplate x).Retryable = f.Retryable := by
  cases f
  rfl

/-- Field calculus: `ErrorCodes` after `setMessageTemplate`. -/
@[simp] theorem DFault.ErrorCodes_setMessageTemplate (f : DFault) (x) : (f.setMessageTemplate x).ErrorCodes = f.ErrorCodes := by
  cases f
  rfl

/-- Field calculus: `Labels` after `setMessageTemplate`. -/
@[simp] theorem DFault.Labels_setMessageTemplate (f : DFault) (x) : (f.setMessageTemplate x).Labels = f.Labels := by
  cases f
  rfl

/-- Field calculus: `publicFlag` after `setMessageTemplate`. -/
@[simp] theorem DFault.publicFlag_setMessageTemplate (f : DFault) (x) : (f.setMessageTemplate x).publicFlag = f.publicFlag := by
  cases f
  rfl

/-- Field calculus: `causeOf` after `setMessageTemplate`. -/
@[simp] theorem DFault.causeOf_setMessageTemplate (f : DFault) (x) : (f.setMessageTemplate x).causeOf = f.causeOf := by
  cases f
  rfl

/-- Field calculus: `callStack` after `setMessageTemplate`. -/
@[simp] theorem DFault.callStack_setMessageTemplate (f : DFault) (x) : (f.setMessageTemplate x).callStack = f.callStack := by
  cases f
  rfl

/-- Field calculus: `Kind` after `setAud`. -/
@[simp] theorem DFault.Kind_setAud (f : DFault) (x) : (f.setAud x).Kind = f.Kind := by
  cases f
  rfl

/-- Field calculus: `MessageTemplate` after `setAud`. -/
@[simp] theorem DFault.MessageTemplate_setAud (f : DFault) (x) : (f.setAud x).MessageTemplate = f.MessageTemplate := by
  cases f
  rfl

/-- Field calculus: `Aud` after `setAud`. -/
@[simp] theorem DFault.Aud_setAud (f : DFault) (x) : (f.setAud x).Aud = x := by
  cases f
  rfl

/-- Field calculus: `Retryable` after `setAud`. -/
@[simp] theorem DFault.Retryable_setAud (f : DFault) (x) : (f.setAud x).Retryable = f.Retryable := by
  cases f
  rfl

/-- Field calculus: `ErrorCodes` after `setAud`. -/
@[simp] theorem DFault.ErrorCodes_setAud (f : DFault) (x) : (f.setAud x).ErrorCodes = f.ErrorCodes := by
  cases f
  rfl

/-- Field calculus: `Labels` after `setAud`. -/
@[simp] theorem DFault.Labels_setAud (f : DFault) (x) : (f.setAud x).Labels = f.Labels := by
  cases f
  rfl

/-- Field calculus: `publicFlag` after `setAud`. -/
@[simp] theorem DFault.publicFlag_setAud (f : DFault) (x) : (f.setAud x).publicFlag = f.publicFlag := by
  cases f
  rfl

/-- Field calculus: `causeOf` after `setAud`. -/
@[simp] theorem DFault.causeOf_setAud (f : DFault) (x) : (f.setAud x).causeOf = f.causeOf := by
  cases f
  rfl

/-- Field calculus: `callStack` after `setAud`. -/
@[simp] theorem DFault.callStack_setAud (f : DFault) (x) : (f.setAud x).callStack = f.callStack := by
  cases f
  rfl

/-- Field calculus: `Kind` after `setRetryable`. -/
@[simp] theorem DFault.Kind_setRetryable (f : DFault) (x) : (f.setRetryable x).Kind = f.Kind := by
  cases f
  rfl

/-- Field calculus: `MessageTemplate` after `setRetryable`. -/
@[simp] theorem DFault.MessageTemplate_setRetryable (f : DFault) (x) : (f.setRetryable x).MessageTemplate = f.MessageTemplate := by
  cases f
  rfl

/-- Field calculus: `Aud` after `setRetryable`. -/
@[simp] theorem DFault.Aud_setRetryable (f : DFault) (x) : (f.setRetryable x).Aud = f.Aud := by
  cases f
  rfl

/-- Field calculus: `Retryable` after `setRetryable`. -/
@[simp] theorem DFault.Retryable_setRetryable (f : DFault) (x) : (f.setRetryable x).Retryable = x := by
  cases f
  rfl

/-- Field calculus: `ErrorCodes` after `setRetryable`. -/
@[simp] theorem DFault.ErrorCodes_setRetryable (f : DFault) (x) : (f.setRetryable x).ErrorCodes = f.ErrorCodes := by
  cases f
  rfl

/-- Field calculus: `Labels` after `setRetryable`. -/
@[simp] theorem DFault.Labels_setRetryable (f : DFault) (x) : (f.setRetryable x).Labels = f.Labels := by
  cases f
  rfl

/-- Field calculus: `publicFlag` after `setRetryable`. -/
@[simp] theorem DFault.publicFlag_setRetryable (f : DFault) (x) : (f.setRetryable x).publicFlag = f.publicFlag := by
  cases f
  rfl

/-- Field calculus: `causeOf` after `setRetryable`. -/
@[simp] theorem DFault.causeOf_setRetryable (f : DFault) (x) : (f.setRetryable x).causeOf = f.causeOf := by
  cases f
  rfl

/-- Field calculus: `callStack` after `setRetryable`. -/
@[simp] theorem DFault.callStack_setRetryable (f : DFault) (x) : (f.setRetryable x).callStack = f.callStack := by
  cases f
  rfl

/-- Field calculus: `Kind` after `setErrorCodes`. -/
@[simp] theorem DFault.Kind_setErrorCodes (f : DFault) (x) : (f.setErrorCodes x).Kind = f.Kind := by
  cases f
  rfl

/-- Field calculus: `MessageTemplate` after `setErrorCodes`. -/
@[simp] theorem DFault.MessageTemplate_setErrorCodes (f : DFault) (x) : (f.setErrorCodes x).MessageTemplate = f.MessageTemplate := by
  cases f
  rfl

/-- Field calculus: `Aud` after `setErrorCodes`. -/
@[simp] theorem DFault.Aud_setErrorCodes (f : DFault) (x) : (f.setErrorCodes x).Aud = f.Aud := by
  cases f
  rfl

/-- Field calculus: `Retryable` after `setErrorCodes`. -/
@[simp] theorem DFault.Retryable_setErrorCodes (f : DFault) (x) : (f.setErrorCodes x).Retryable = f.Retryable := by
  cases f
  rfl

/-- Field calculus: `ErrorCodes` after `setErrorCodes`. -/
@[simp] theorem DFault.ErrorCodes_setErrorCodes (f : DFault) (x) : (f.setErrorCodes x).ErrorCodes = x := by
  cases f
  rfl

/-- Field calculus: `Labels` after `setErrorCodes`. -/
@[simp] theorem DFault.Labels_setErrorCodes (f : DFault) (x) : (f.setErrorCodes x).Labels = f.Labels := by
  cases f
  rfl

/-- Field calculus: `publicFlag` after `setErrorCodes`. -/
@[simp] theorem DFault.publicFlag_setErrorCodes (f : DFault) (x) : (f.setErrorCodes x).publicFlag = f.publicFlag := by
  cases f
  rfl

/-- Field calculus: `causeOf` after `setErrorCodes`. -/
@[simp] theorem DFault.causeOf_setErrorCodes (f : DFault) (x) : (f.setErrorCodes x).causeOf = f.causeOf := by
  cases f
  rfl

/-- Field calculus: `callStack` after `setErrorCodes`. -/
@[simp] theorem DFault.callStack_setErrorCodes (f : DFault) (x) : (f.setErrorCodes x).callStack = f.callStack := by
  cases f
  rfl

/-- Field calculus: `Kind` after `setLabels`. -/
@[simp] theorem DFault.Kind_setLabels (f : DFault) (x) : (f.setLabels x).Kind = f.Kind := by
  cases f
  rfl

/-- Field calculus: `MessageTemplate` after `setLabels`. -/
@[simp] theorem DFault.MessageTemplate_setLabels (f : DFault) (x) : (f.setLabels x).MessageTemplate = f.MessageTemplate := by
  cases f
  rfl

/-- Field calculus: `Aud` after `setLabels`. -/
@[simp] theorem DFault.Aud_setLabels (f : DFault) (x) : (f.setLabels x).Aud = f.Aud := by
  cases f
  rfl

/-- Field calculus: `Retryable` after `setLabels`. -/
@[simp] theorem DFault.Retryable_setLabels (f : DFault) (x) : (f.setLabels x).Retryable = f.Retryable := by
  cases f
  rfl

/-- Field calculus: `ErrorCodes` after `setLabels`. -/
@[simp] theorem DFault.ErrorCodes_setLabels (f : DFault) (x) : (f.setLabels x).ErrorCodes = f.ErrorCodes := by
  cases f
  rfl

/-- Field calculus: `Labels` after `setLabels`. -/
@[simp] theorem DFault.Labels_setLabels (f : DFault) (x) : (f.setLabels x).Labels = x := by
  cases f
  rfl

/-- Field calculus: `publicFlag` after `setLabels`. -/
@[simp] theorem DFault.publicFlag_setLabels (f : DFault) (x) : (f.setLabels x).publicFlag = f.publicFlag := by
  cases f
  rfl

/-- Field calculus: `causeOf` after `setLabels`. -/
@[simp] theorem DFault.causeOf_setLabels (f : DFault) (x) : (f.setLabels x).causeOf = f.causeOf := by
  cases f
  rfl

/-- Field calculus: `callStack` after `setLabels`. -/
@[simp] theorem DFault.callStack_setLabels (f : DFault) (x) : (f.setLabels x).callStack = f.callStack := by
  cases f
  rfl

/-- Field calculus: `Kind` after `setPublic`. -/
@[simp] theorem DFault.Kind_setPublic (f : DFault) (x) : (f.setPublic x).Kind = f.Kind := by
  cases f
  rfl

/-- Field calculus: `MessageTemplate` after `setPublic`. -/
@[simp] theorem DFault.MessageTemplate_setPublic (f : DFault) (x) : (f.setPublic x).MessageTemplate = f.MessageTemplate := by
  cases f
  rfl

/-- Field calculus: `Aud` after `setPublic`. -/
@[simp] theorem DFault.Aud_setPublic (f : DFault) (x) : (f.setPublic x).Aud = f.Aud := by
  cases f
  rfl

/-- Field calculus: `Retryable` after `setPublic`. -/
@[simp] theorem DFault.Retryable_setPublic (f : DFault) (x) : (f.setPublic x).Retryable = f.Retryable := by
  cases f
  rfl

/-- Field calculus: `ErrorCodes` after `setPublic`. -/
@[simp] theorem DFault.ErrorCodes_setPublic (f : DFault) (x) : (f.setPublic x).ErrorCodes = f.ErrorCodes := by
  cases f
  rfl

/-- Field calculus: `Labels` after `setPublic`. -/
@[simp] theorem DFault.Labels_setPublic (f : DFault) (x) : (f.setPublic x).Labels = f.Labels := by
  cases f
  rfl

/-- Field calculus: `publicFlag` after `setPublic`. -/
@[simp] theorem DFault.publicFlag_setPublic (f : DFault) (x) : (f.setPublic x).publicFlag = x := by
  cases f
  rfl

/-- Field calculus: `causeOf` after `setPublic`. -/
@[simp] theorem DFault.causeOf_setPublic (f : DFault) (x) : (f.setPublic x).causeOf = f.causeOf := by
  cases f
  rfl

/-- Field calculus: `callStack` after `setPublic`. -/
@[simp] theorem DFault.callStack_setPublic (f : DFault) (x) : (f.setPublic x).callStack = f.callStack := by
  cases f
  rfl

/-- Field calculus: `Kind` after `setCause`. -/
@[simp] theorem DFault.Kind_setCause (f : DFault) (x) : (f.setCause x).Kind = f.Kind := by
  cases f
  rfl

/-- Field calculus: `MessageTemplate` after `setCause`. -/
@[simp] theorem DFault.MessageTemplate_setCause (f : DFault) (x) : (f.setCause x).MessageTemplate = f.MessageTemplate := by
  cases f
  rfl

/-- Field calculus: `Aud` after `setCause`. -/
@[simp] theorem DFault.Aud_setCause (f : DFault) (x) : (f.setCause x).Aud = f.Aud := by
  cases f
  rfl

/-- Field calculus: `Retryable` after `setCause`. -/
@[simp] theorem DFault.Retryable_setCause (f : DFault) (x) : (f.setCause x).Retryable = f.Retryable := by
  cases f
  rfl

/-- Field calculus: `ErrorCodes` after `setCause`. -/
@[simp] theorem DFault.ErrorCodes_setCause (f : DFault) (x) : (f.setCause x).ErrorCodes = f.ErrorCodes := by
  cases f
  rfl

/-- Field calculus: `Labels` after `setCause`. -/
@[simp] theorem DFault.Labels_setCause (f : DFault) (x) : (f.setCause x).Labels = f.Labels := by
  cases f
  rfl

/-- Field calculus: `publicFlag` after `setCause`. -/
@[simp] theorem DFault.publicFlag_setCause (f : DFault) (x) : (f.setCause x).publicFlag = f.publicFlag := by
  cases f
  rfl

/-- Field calculus: `causeOf` after `setCause`. -/
@[simp] theorem DFault.causeOf_setCause (f : DFault) (x) : (f.setCause x).causeOf = x := by
  cases f
  rfl

/-- Field calculus: `callStack` after `setCause`. -/
@[simp] theorem DFault.callStack_setCause (f : DFault) (x) : (f.setCause x).callStack = f.callStack := by
  cases f
  rfl

/-- Field calculus: `Kind` after `setCallStack`. -/
@[simp] theorem DFault.Kind_setCallStack (f : DFault) (x) : (f.setCallStack x).Kind = f.Kind := by
  cases f
  rfl

/-- Field calculus: `MessageTemplate` after `setCallStack`. -/
@[simp] theorem DFault.MessageTemplate_setCallStack (f : DFault) (x) : (f.setCallStack x).MessageTemplate = f.MessageTemplate := by
  cases f
  rfl

/-- Field calculus: `Aud` after `setCallStack`. -/
@[simp] theorem DFault.Aud_setCallStack (f : DFault) (x) : (f.setCallStack x).Aud = f.Aud := by
  cases f
  rfl

/-- Field calculus: `Retryable` after `setCallStack`. -/
@[simp] theorem DFault.Retryable_setCallStack (f : DFault) (x) : (f.setCallStack x).Retryable = f.Retryable := by
  cases f
  rfl

/-- Field calculus: `ErrorCodes` after `setCallStack`. -/
@[simp] theorem DFault.ErrorCodes_setCallStack (f : DFault) (x) : (f.setCallStack x).ErrorCodes = f.ErrorCodes := by
  cases f
  rfl

/-- Field calculus: `Labels` after `setCallStack`. -/
@[simp] theorem DFault.Labels_setCallStack (f : DFault) (x) : (f.setCallStack x).Labels = f.Labels := by
  cases f
  rfl

/-- Field calculus: `publicFlag` after `setCallStack`. -/
@[simp] theorem DFault.publicFlag_setCallStack (f : DFault) (x) : (f.setCallStack x).publicFlag = f.publicFlag := by
  cases f
  rfl

/-- Field calculus: `causeOf` after `setCallStack`. -/
@[simp] theorem DFault.causeOf_setCallStack (f : DFault) (x) : (f.setCallStack x).causeOf = f.causeOf := by
  cases f
  rfl

/-- Field calculus: `callStack` after `setCallStack`. -/
@[simp] theorem DFault.callStack_setCallStack (f : DFault) (x) : (f.setCallStack x).callStack = x := by
  cases f
  rfl

end KE

namespace KEH

open KE (GoValue StrMap LblMap SOpt mapGetS mapGetL mapInsertS mapInsertL mapDeleteS
  mapDeleteL setUnion StringSimpleResolve StringExtractVariableNames trimRightCtx
  setContainsAny AuthenticationFault AuthorizationFault
  AUTHENTICATION_ERRCODE_MISSING AUTHENTICATION_ERRCODE_NOT_SUPPORTED
  AUTHORIZATION_NO_PERMISSION RuntimeFault)

/-- Writing back the value a cell already holds leaves a list unchanged. -/
theorem listSetSelf {α : Type} (l : List α) (i : Nat) (v : α) (h : l.get? i = some v) :
    l.set i v = l := by
  induction l generalizing i with
  | nil => rfl
  | cons a t ih =>
    cases i with
    | zero => simp only [List.get?] at h; simp [List.set, Option.some_inj.mp h]
    | succ n => simp only [List.get?] at h; simp [List.set, ih n h]

/-- Writing a label cell does not move the string store. -/
theorem strMaps_writeLbl (h : Heap) (r : Nat) (v : LblMap) :
    (h.writeLbl r v).strMaps = h.strMaps := rfl

/-- Writing a string cell does not move the label store. -/
theorem lblMaps_writeStr (h : Heap) (r : Nat) (v : StrMap) :
    (h.writeStr r v).lblMaps = h.lblMaps := rfl

/-- Allocating a label map does not move the string store. -/
theorem strMaps_allocLbl (h : Heap) (v : LblMap) :
    ((h.allocLbl v).2).strMaps = h.strMaps := rfl

/-- Allocating a string map does not move the label store. -/
theorem lblMaps_allocStr (h : Heap) (v : StrMap) :
    ((h.allocStr v).2).lblMaps = h.lblMaps := rfl

/-- Allocation leaves every existing label cell in place. -/
theorem lblGet_allocLbl (h : Heap) (v : LblMap) (q : Nat) (hq : q < h.lblMaps.length) :
    ((h.allocLbl v).2).lblMaps.get? q = h.lblMaps.get? q := by
  simp [Heap.allocLbl, List.get?_eq_getElem?, List.getElem?_append_left hq]

/-- Allocation leaves every existing string cell in place. -/
theorem strGet_allocStr (h : Heap) (v : StrMap) (q : Nat) (hq : q < h.strMaps.length) :
    ((h.allocStr v).2).strMaps.get? q = h.strMaps.get? q := by
  simp [Heap.allocStr, List.get?_eq_getElem?, List.getElem?_append_left hq]

/-- Writing one string cell leaves the others in place. -/
theorem strGet_writeStr_ne (h : Heap) (r : Nat) (v : StrMap) (q : Nat) (hq : r ≠ q) :
    ((h.writeStr r v).strMaps.get? q) = h.strMaps.get? q :=
  List.get?_set_ne v h.strMaps hq

/-- Writing one label cell leaves the others in place. -/
theorem lblGet_writeLbl_ne (h : Heap) (r : Nat) (v : LblMap) (q : Nat) (hq : r ≠ q) :
    ((h.writeLbl r v).lblMaps.get? q) = h.lblMaps.get? q :=
  List.get?_set_ne v h.lblMaps hq

/-- The delete loop never touches the string store. -/
theorem deleteVarsLoop_strMaps (ref : Option Nat) (ks : List String) (h : Heap) :
    (deleteVarsLoop ref ks h).strMaps = h.strMaps := by
  induction ks generalizing h with
  | nil => rfl
  | cons k rest ih =>
    cases ref with
    | none => simpa [deleteVarsLoop] using ih h
    | some r => simp [deleteVarsLoop, ih, strMaps_writeLbl]

/-- The delete loop through a nil map reference is a no-op. -/
theorem deleteVarsLoop_none (ks : List String) (h : Heap) :
    deleteVarsLoop none ks h = h := by
  induction ks generalizing h with
  | nil => rfl
  | cons k rest ih => simpa [deleteVarsLoop] using ih h

/-- The delete loop writes only the cell it targets. -/
theorem deleteVarsLoop_lblGet_ne (r0 : Nat) (ks : List String) (h : Heap) (q : Nat)
    (hq : r0 ≠ q) :
    (deleteVarsLoop (some r0) ks h).lblMaps.get? q = h.lblMaps.get? q := by
  induction ks generalizing h with
  | nil => rfl
  | cons k rest ih =>
    simp only [deleteVarsLoop]
    rw [ih, lblGet_writeLbl_ne h r0 _ q hq]

/-- Deleting keys from an empty map cell rewrites the cell with its own
value, so the whole heap is unchanged. -/
theorem deleteVarsLoop_empty (r0 : Nat) (ks : List String) (h : Heap)
    (hv : h.lblMaps.get? r0 = some []) :
    deleteVarsLoop (some r0) ks h = h := by
  induction ks generalizing h with
  | nil => rfl
  | cons k rest ih =>
    have hread : h.readLbl r0 = [] := by
      show (h.lblMaps.get? r0).getD [] = []
      rw [hv]
      rfl
    have hw : h.writeLbl r0 (mapDeleteL (h.readLbl r0) k) = h := by
      rw [hread]
      show h.writeLbl r0 [] = h
      simp only [Heap.writeLbl]
      rw [listSetSelf h.lblMaps r0 [] hv]
    simp only [deleteVarsLoop]
    rw [hw]
    exact ih h hv

/-- The audience loop never touches the label store. -/
theorem audResolveLoop_lblMaps {κ : Type} (df : DFaultH κ) (dst : Nat) (leave : Bool)
    (ks : List String) (h : Heap) (vars : List String) :
    ((audResolveLoop df dst leave ks h vars).1).lblMaps = h.lblMaps := by
  induction ks generalizing h vars with
  | nil => rfl
  | cons k rest ih => simp [audResolveLoop, ih, lblMaps_writeStr]

/-- The audience loop writes only its destination cell. -/
theorem audResolveLoop_strGet_ne {κ : Type} (df : DFaultH κ) (dst : Nat) (leave : Bool)
    (ks : List String) (h : Heap) (vars : List String) (q : Nat) (hq : dst ≠ q) :
    ((audResolveLoop df dst leave ks h vars).1).strMaps.get? q = h.strMaps.get? q := by
  induction ks generalizing h vars with
  | nil => rfl
  | cons k rest ih =>
    simp only [audResolveLoop]
    rw [ih, strGet_writeStr_ne _ dst _ q hq]

/-- With LeaveMessageVarsInLabels the audience loop collects no variables. -/
theorem audResolveLoop_leave_vars {κ : Type} (df : DFaultH κ) (dst : Nat)
    (ks : List String) (h : Heap) (vars : List String) :
    (audResolveLoop df dst true ks h vars).2 = vars := by
  induction ks generalizing h vars with
  | nil => rfl
  | cons k rest ih => simp [audResolveLoop, ih]

/-- The resolve block writes no string cell below the heap it was given. -/
theorem resolveBlock_strGet {κ : Type} (df : DFaultH κ) (leave : Bool) (lref : Option Nat)
    (vars0 : List String) (h1 : Heap) (q : Nat) (hq : q < h1.strMaps.length) :
    ((resolveBlock df leave lref vars0 h1).2).strMaps.get? q = h1.strMaps.get? q := by
  have hne : h1.strMaps.length ≠ q := Nat.ne_of_gt hq
  have happ : (h1.strMaps ++ [[]]).get? q = h1.strMaps.get? q := by
    simp only [List.get?_eq_getElem?]
    exact List.getElem?_append_left hq
  unfold resolveBlock
  dsimp only
  simp only [Heap.allocStr]
  split
  · rw [deleteVarsLoop_strMaps, audResolveLoop_strGet_ne _ _ _ _ _ _ _ hne]
    exact happ
  · rw [audResolveLoop_strGet_ne _ _ _ _ _ _ _ hne]
    exact happ

/-- With a nil label reference the resolve block leaves the label store
untouched. -/
theorem resolveBlock_lbl_none {κ : Type} (df : DFaultH κ) (leave : Bool)
    (vars0 : List String) (h1 : Heap) :
    ((resolveBlock df leave none vars0 h1).2).lblMaps = h1.lblMaps := by
  unfold resolveBlock
  dsimp only
  simp only [Heap.allocStr]
  split
  · rw [deleteVarsLoop_none, audResolveLoop_lblMaps]
  · rw [audResolveLoop_lblMaps]

/-- The resolve block touches no label cell other than the one its label
reference targets. -/
theorem resolveBlock_lblGet_ne {κ : Type} (df : DFaultH κ) (leave : Bool) (r : Nat)
    (vars0 : List String) (h1 : Heap) (q : Nat) (hq : r ≠ q) :
    ((resolveBlock df leave (some r) vars0 h1).2).lblMaps.get? q = h1.lblMaps.get? q := by
  unfold resolveBlock
  dsimp only
  simp only [Heap.allocStr]
  split
  · rw [deleteVarsLoop_lblGet_ne _ _ _ _ hq, audResolveLoop_lblMaps]
  · rw [audResolveLoop_lblMaps]

/-- When the targeted label cell is empty, the resolve block leaves the
label store untouched (deleting from an empty map rewrites it with its own
value). -/
theorem resolveBlock_lbl_empty {κ : Type} (df : DFaultH κ) (leave : Bool) (r : Nat)
    (vars0 : List String) (h1 : Heap) (hr : h1.lblMaps.get? r = some []) :
    ((resolveBlock df leave (some r) vars0 h1).2).lblMaps = h1.lblMaps := by
  unfold resolveBlock
  dsimp only
  simp only [Heap.allocStr]
  split
  · rw [deleteVarsLoop_empty, audResolveLoop_lblMaps]
    rw [audResolveLoop_lblMaps]
    exact hr
  · rw [audResolveLoop_lblMaps]

/-- With LeaveMessageVarsInLabels and no pre-collected variables, the
resolve block never deletes, no matter what its label reference is. -/
theorem resolveBlock_leave_lbl {κ : Type} (df : DFaultH κ) (lref : Option Nat) (h1 : Heap) :
    ((resolveBlock df true lref [] h1).2).lblMaps = h1.lblMaps := by
  unfold resolveBlock
  dsimp only
  simp [Heap.allocStr, audResolveLoop_leave_vars, audResolveLoop_lblMaps]

/-- ToFullJSON writes only cells it freshly allocated, the global
(empty) `_NONPUBLIC_FAULT` label cell excepted — and rewriting that one
with redaction deletes leaves its empty contents unchanged.  Every cell of
the given heap is untouched. -/
theorem toFullJSONH_frame {κ : Type} (df : DFaultH κ) (opts : List SOpt) (h : Heap)
    (hnp : h.lblMaps.get? npFaultLabelsRef = some []) :
    (∀ q, q < h.strMaps.length →
      ((toFullJSONH (some df) opts h).2).strMaps.get? q = h.strMaps.get? q) ∧
    ∀ q, q < h.lblMaps.length →
      ((toFullJSONH (some df) opts h).2).lblMaps.get? q = h.lblMaps.get? q := by
  by_cases hpub : df.publicFlag = true <;>
  by_cases hanp : SOpt.allowNonPublicSerialization ∈ opts <;>
  by_cases hres : SOpt.resolveMessages ∈ opts <;>
  by_cases hleave : SOpt.leaveMessageVarsInLabels ∈ opts <;>
  simp [toFullJSONH, Heap.allocLbl, npFaultH, hpub, hanp, hres, hleave] <;>
  refine ⟨fun q hq => ?_, fun q hq => ?_⟩ <;>
  simp only [← List.get?_eq_getElem?] <;>
  first
  | exact resolveBlock_strGet _ _ _ _ _ _ hq
  | rw [resolveBlock_leave_lbl]
  | rw [resolveBlock_lbl_empty _ _ _ _ _ hnp]
  | (rw [resolveBlock_lblGet_ne _ _ _ _ _ _ (Nat.ne_of_gt hq)]
     show (h.lblMaps ++ [getLabelsVal df h]).get? q = _
     simp only [List.get?_eq_getElem?]
     exact List.getElem?_append_left hq)

/-- The delete-after-alloc composition of ToNaturalJSON touches no
pre-existing label cell and no string cell. -/
theorem ifDelete_frame (h : Heap) (v : LblMap) (vars : List String) (c : Prop) [Decidable c] :
    ((if c then
        deleteVarsLoop (some h.lblMaps.length) vars
          ({ strMaps := h.strMaps, lblMaps := h.lblMaps ++ [v] } : Heap)
      else ({ strMaps := h.strMaps, lblMaps := h.lblMaps ++ [v] } : Heap)).strMaps = h.strMaps)
    ∧ ∀ q, q < h.lblMaps.length →
      (if c then
          deleteVarsLoop (some h.lblMaps.length) vars
            ({ strMaps := h.strMaps, lblMaps := h.lblMaps ++ [v] } : Heap)
        else ({ strMaps := h.strMaps, lblMaps := h.lblMaps ++ [v] } : Heap)).lblMaps[q]? =
        h.lblMaps[q]? := by
  constructor
  · split
    · rw [deleteVarsLoop_strMaps]
    · rfl
  · intro q hq
    split
    · rw [← List.get?_eq_getElem?, deleteVarsLoop_lblGet_ne _ _ _ _ (Nat.ne_of_gt hq)]
      show (h.lblMaps ++ [v]).get? q = _
      simp only [List.get?_eq_getElem?]
      exact List.getElem?_append_left hq
    · exact List.getElem?_append_left hq

/-- ToNaturalJSON only ever allocates fresh cells and deletes inside a
fresh copy: every pre-existing heap cell is untouched. -/
theorem toNaturalJSONH_frame {κ : Type} (df : DFaultH κ) (aud : String) (opts : List SOpt)
    (h : Heap) :
    ((toNaturalJSONH (some df) aud opts h).2).strMaps = h.strMaps ∧
    ∀ q, q < h.lblMaps.length →
      ((toNaturalJSONH (some df) aud opts h).2).lblMaps.get? q = h.lblMaps.get? q := by
  simp only [List.get?_eq_getElem?]
  by_cases hpub : df.publicFlag = true <;>
  by_cases hanp : SOpt.allowNonPublicSerialization ∈ opts <;>
  by_cases hres : SOpt.resolveMessages ∈ opts <;>
  by_cases hleave : SOpt.leaveMessageVarsInLabels ∈ opts <;>
  by_cases haud : aud = "" <;>
  cases hA : df.LabelsRef <;>
  simp [toNaturalJSONH, Heap.allocLbl, hpub, hanp, hres, hleave, haud, hA] <;>
  first
  | exact fun q hq => List.getElem?_append_left hq
  | exact ifDelete_frame h _ _ _

end KEH

/-- C9: for every Fault and every combination of serialization options and
audience argument, ToNaturalJSON and ToFullJSON leave the fault itself
structurally unchanged — its label mapping, message templates,
audience-template mapping, error codes and all other fields (read off
through the heap) are equal before and after the call, in particular with
ResolveMessages set with or without LeaveMessageVarsInLabels: pruning
happens only on the emitted copy.  The hypotheses say the fault's map
references are live cells of the heap and the global `_NONPUBLIC_FAULT`
label cell holds its (invariantly empty) contents. -/
theorem serialization_preserves_fault {κ : Type} (df : KEH.DFaultH κ) (aud : String)
    (opts : List KE.SOpt) (h : KEH.Heap)
    (hva : ∀ r, df.AudRef = some r → r < h.strMaps.length)
    (hvl : ∀ r, df.LabelsRef = some r → r < h.lblMaps.length)
    (hnp : h.lblMaps.get? KEH.npFaultLabelsRef = some []) :
    KEH.faultState df ((KEH.toNaturalJSONH (some df) aud opts h).2) = KEH.faultState df h ∧
    KEH.faultState df ((KEH.toFullJSONH (some df) opts h).2) = KEH.faultState df h := by
  have hnat := KEH.toNaturalJSONH_frame df aud opts h
  have hfull := KEH.toFullJSONH_frame df opts h hnp
  constructor
  · have eA : df.AudRef.map ((KEH.toNaturalJSONH (some df) aud opts h).2).readStr
        = df.AudRef.map h.readStr := by
      cases hA : df.AudRef with
      | none => rfl
      | some r =>
        simp only [Option.map]
        congr 1
        unfold KEH.Heap.readStr
        rw [hnat.1]
    have eL : df.LabelsRef.map ((KEH.toNaturalJSONH (some df) aud opts h).2).readLbl
        = df.LabelsRef.map h.readLbl := by
      cases hL : df.LabelsRef with
      | none => rfl
      | some r =>
        simp only [Option.map]
        congr 1
        unfold KEH.Heap.readLbl
        rw [hnat.2 r (hvl r hL)]
    unfold KEH.faultState
    rw [eA, eL]
  · have eA : df.AudRef.map ((KEH.toFullJSONH (some df) opts h).2).readStr
        = df.AudRef.map h.readStr := by
      cases hA : df.AudRef with
      | none => rfl
      | some r =>
        simp only [Option.map]
        congr 1
        unfold KEH.Heap.readStr
        rw [hfull.1 r (hva r hA)]
    have eL : df.LabelsRef.map ((KEH.toFullJSONH (some df) opts h).2).readLbl
        = df.LabelsRef.map h.readLbl := by
      cases hL : df.LabelsRef with
      | none => rfl
      | some r =>
        simp only [Option.map]
        congr 1
        unfold KEH.Heap.readLbl
        rw [hfull.2 r (hvl r hL)]
    unfold KEH.faultState
    rw [eA, eL]

/-- C1: the redaction rule is broken in the code.  ToFullJSON on a
non-public fault emits kind "NaN" (not Runtime), and with ResolveMessages
it emits the RESOLVED REAL default message and audience messages instead
of empty ones; ToNaturalJSON on a nil fault emits kind "NaN" (not
Runtime).  Evaluation of the embedded serializers at the failing input. -/
theorem fulljson_redaction_is_broken :
    (KEH.toFullJSONH (some c1Fault) [KE.SOpt.resolveMessages] c1Heap).1 =
      some { Kind := "NaN", Message := "secret of X",
             MessagesByAudience := some [("user", "u-secret X")], Retryable := true,
             ErrorCodes := some [], Labels := some [] } ∧
    (KEH.toFullJSONH (some c1Fault) [] c1Heap).1 =
      some { Kind := "NaN", Message := "", MessagesByAudience := some [],
             Retryable := true, ErrorCodes := some [], Labels := some [] } ∧
    (KEH.toNaturalJSONH (κ := Unit) none "" [] KEH.baseHeap).1 =
      { Kind := "NaN", Message := "", Retryable := false, ErrorCodes := [], Labels := [] } ∧
    (KEH.toNaturalJSONH (some c1Fault) "" [KE.SOpt.resolveMessages] c1Heap).1 =
      { Kind := KE.RuntimeFault, Message := "", Retryable := true, ErrorCodes := [],
        Labels := [] } := by
  refine ⟨?_, ?_, ?_, ?_⟩ <;> decide

/-- C2: Build does NOT decouple the audience-template map — builder and
built fault share the same map reference, so AddContextToAudienceMessage
on the built fault mutates the builder's accumulated state: a fault built
afterwards from the same builder observes the mutated template.
Evaluation of the embedded code at the failing input. -/
theorem build_shares_audience_map :
    KEH.getMessageTemplateForAudienceH (some c2First.1) KE.MSGAUDIENCE_USER c2First.2.2
      = "hello" ∧
    c2First.2.1.fault.AudRef = c2First.1.AudRef ∧
    KEH.getMessageTemplateForAudienceH (some c2Second.1) KE.MSGAUDIENCE_USER c2Second.2.2
      = "ctx - hello" := by
  refine ⟨?_, ?_, ?_⟩ <;> decide

/-- C3: the boundary converter PANICS (instead of returning a public
Fault) when the input is a plain non-Fault error and the
OptionWhitelistedFaultKinds option carries inheritErrorCodes = true: the
code then calls GetErrorCodes on the nil Fault interface IsFault returned.
Evaluation at the failing input; a Fault input with the same option
converts fine. -/
theorem converter_panics_inheriting_from_non_fault :
    KE.NewPublicFaultFromAnyError (some (KE.GoErr.generic ("boom"))) ("tid1")
      [KE.ConvOption.whitelistedKinds [] true] = none ∧
    (KE.NewPublicFaultFromAnyError (some (KE.GoErr.generic ("boom"))) ("tid1") []).isSome
      = true ∧
    (KE.NewPublicFaultFromAnyError
      (some (KE.GoErr.ktFault (some ((KE.Build (KE.NewFaultBuilder KE.RuntimeFault)).1))))
      ("tid1") [KE.ConvOption.whitelistedKinds [] true]).isSome = true :=
  ⟨rfl, rfl, rfl⟩

/-- C4: operations on a nil Fault reference do NOT all degrade gracefully:
Error() and String() dereference the nil receiver (no nil guard) and
ToFullJSON with ResolveMessages dereferences it in the resolve block — all
three panic.  The guarded operations do degrade as the claim says. -/
theorem nil_fault_operations_panic :
    KE.faultErrorString none = none ∧
    KE.faultToString none = none ∧
    (KEH.toFullJSONH (κ := Unit) none [KE.SOpt.resolveMessages] KEH.baseHeap).1 = none ∧
    KE.GetMessage none = "" ∧
    KE.IsRetryable none = false ∧
    KE.GetLabels none = [] ∧
    KE.AddContextToMessage none ("more ctx - ") = none ∧
    (KEH.toNaturalJSONH (κ := Unit) none "" [KE.SOpt.resolveMessages] KEH.baseHeap).1.Kind
      = "NaN" :=
  ⟨rfl, rfl, rfl, rfl, rfl, rfl, rfl, rfl⟩

/-- C8: AddContextToAudienceMessage PANICS on a fault built without any
audience templates: the audience map is nil and the method assigns into it
without a lazy `make`.  On a fault whose map exists the claimed behaviour
holds: an existing audience is prepended verbatim, a new audience is
created with the trailing-trimmed text, and empty arguments are no-ops. -/
theorem add_audience_context_panics_on_nil_map :
    KE.AddContextToAudienceMessage (some c8Fault) ("operator") ("extra context - ") = none ∧
    (KE.AddContextToAudienceMessage (some c8FaultWithAud) ("operator") ("extra context - ")).map
      (fun fr => KE.GetMessageTemplateForAudience fr ("operator"))
      = some ("extra context - msg for operators") ∧
    (KE.AddContextToAudienceMessage (some c8FaultWithAud) ("audience2") ("new context - ")).map
      (fun fr => KE.GetMessageTemplateForAudience fr ("audience2"))
      = some ("new context") ∧
    KE.AddContextToAudienceMessage (some c8FaultWithAud) ("operator") ("")
      = some (some c8FaultWithAud) ∧
    KE.AddContextToAudienceMessage (some c8FaultWithAud) ("") ("extra context - ")
      = some (some c8FaultWithAud) :=
  ⟨rfl, rfl, rfl, rfl, rfl⟩

/-- C10 counterexample: the claim says the built Fault's IsRetryable() is
false for Authentication + auth_data_missing, but the Fault returned by
the FIRST Build call reports true — the retryable review runs after the
returned copy was taken and resets only the builder's flag. -/
theorem first_build_keeps_retryable :
    KE.IsRetryable (some (KE.Build c10Builder).1) = true := by decide

/-- C10 amended: for a builder whose kind/code combination is
Authentication with auth_data_missing or auth_method_not_supported, or
Authorization with no_permission, and whose retryable flag is set, Build
returns a Fault that still reports IsRetryable() = true, while resetting
the builder's retryable flag to false — so every subsequently built Fault
reports false. -/
theorem build_review_clears_builder_flag (b : KE.Builder)
    (hr : b.fault.Retryable = true)
    (hk : b.fault.Kind = KE.AuthenticationFault ∧
            KE.setContainsAny b.errCodes
              [KE.AUTHENTICATION_ERRCODE_MISSING, KE.AUTHENTICATION_ERRCODE_NOT_SUPPORTED] = true
          ∨ b.fault.Kind = KE.AuthorizationFault ∧
            KE.setContainsAny b.errCodes [KE.AUTHORIZATION_NO_PERMISSION] = true) :
    (KE.Build b).1.Retryable = true ∧
    (KE.Build b).2.fault.Retryable = false ∧
    ((KE.Build (KE.Build b).2).1).Retryable = false := by
  have hfst : ∀ c : KE.Builder, (KE.Build c).1.Retryable = c.fault.Retryable := by
    intro c
    unfold KE.Build
    cases hL : c.fault.Labels <;> simp [hL] <;> split <;> simp
  have hne : KE.AuthorizationFault ≠ KE.AuthenticationFault := by decide
  have hsnd : (KE.Build b).2.fault.Retryable = false := by
    unfold KE.Build
    rcases hk with ⟨hk, hc⟩ | ⟨hk, hc⟩ <;> simp [hr, hk, hc, hne]
  exact ⟨by rw [hfst]; exact hr, hsnd, by rw [hfst]; exact hsnd⟩

/-- Witness for the C10 amended theorem at the concrete counterexample
builder. -/
theorem build_review_clears_builder_flag_witness :
    (c10Builder.fault.Retryable = true ∧
     (c10Builder.fault.Kind = KE.AuthenticationFault ∧
       KE.setContainsAny c10Builder.errCodes
         [KE.AUTHENTICATION_ERRCODE_MISSING, KE.AUTHENTICATION_ERRCODE_NOT_SUPPORTED] = true)) ∧
    ((KE.Build c10Builder).1.Retryable = true ∧
     (KE.Build c10Builder).2.fault.Retryable = false ∧
     ((KE.Build (KE.Build c10Builder).2).1).Retryable = false) :=
  ⟨⟨by decide, by decide, by decide⟩,
    build_review_clears_builder_flag c10Builder (by decide)
      (Or.inl ⟨by decide, by decide⟩)⟩

/-- Witness for C9 at a concrete fault and heap, with ResolveMessages set
and LeaveMessageVarsInLabels absent (the pruning case). -/
theorem serialization_preserves_fault_witness :
    ((∀ r, c9Fault.AudRef = some r → r < c9Heap.strMaps.length) ∧
     (∀ r, c9Fault.LabelsRef = some r → r < c9Heap.lblMaps.length) ∧
     c9Heap.lblMaps.get? KEH.npFaultLabelsRef = some []) ∧
    (KEH.faultState c9Fault
        ((KEH.toNaturalJSONH (some c9Fault) "" [KE.SOpt.resolveMessages] c9Heap).2)
        = KEH.faultState c9Fault c9Heap ∧
     KEH.faultState c9Fault
        ((KEH.toFullJSONH (some c9Fault) [KE.SOpt.resolveMessages] c9Heap).2)
        = KEH.faultState c9Fault c9Heap) :=
  ⟨⟨fun r hr => by
      have e : (2 : Nat) = r := by injection hr
      exact e ▸ (by decide),
    fun r hr => by
      have e : (4 : Nat) = r := by injection hr
      exact e ▸ (by decide),
    by decide⟩,
   serialization_preserves_fault c9Fault "" [KE.SOpt.resolveMessages] c9Heap
     (fun r hr => by
       have e : (2 : Nat) = r := by injection hr
       exact e ▸ (by decide))
     (fun r hr => by
       have e : (4 : Nat) = r := by injection hr
       exact e ▸ (by decide))
     (by decide)⟩

/-- C6: postconditions of the two status mappers.  A nil Fault interface
maps to HTTP 200 and RPC OK; every non-public Fault reference (the nil
pointer included) maps to HTTP 500 and RPC Internal regardless of kind and
codes; a public ConstraintViolation fault carrying id_already_taken or
already_exists maps to 409/AlreadyExists, one carrying not_exists but
neither of those two maps to 404/NotFound, and one carrying none of the
three maps to 412/FailedPrecondition. -/
theorem status_mapper_postconditions :
    (KE.GetHttpStatusCodeForFault none = 200 ∧
     KE.GetGrpcStatusCodeForFault none = KE.codeOK) ∧
    (∀ fref : KE.FaultRef, KE.IsPublic fref = false →
      KE.GetHttpStatusCodeForFault (some fref) = 500 ∧
      KE.GetGrpcStatusCodeForFault (some fref) = KE.codeInternal) ∧
    ∀ f : KE.DFault, f.publicFlag = true → f.Kind = KE.ConstraintViolationFault →
      ((KE.HasErrorCode (some f) [KE.ERRCODE_ID_ALREADY_TAKEN] = true ∨
        KE.HasErrorCode (some f) [KE.ERRCODE_ALREADY_EXIST] = true) →
        KE.GetHttpStatusCodeForFault (some (some f)) = 409 ∧
        KE.GetGrpcStatusCodeForFault (some (some f)) = KE.codeAlreadyExists) ∧
      (KE.HasErrorCode (some f) [KE.ERRCODE_ID_ALREADY_TAKEN] = false →
       KE.HasErrorCode (some f) [KE.ERRCODE_ALREADY_EXIST] = false →
       KE.HasErrorCode (some f) [KE.ERRCODE_DOES_NOT_EXIST] = true →
        KE.GetHttpStatusCodeForFault (some (some f)) = 404 ∧
        KE.GetGrpcStatusCodeForFault (some (some f)) = KE.codeNotFound) ∧
      (KE.HasErrorCode (some f) [KE.ERRCODE_ID_ALREADY_TAKEN] = false →
       KE.HasErrorCode (some f) [KE.ERRCODE_ALREADY_EXIST] = false →
       KE.HasErrorCode (some f) [KE.ERRCODE_DOES_NOT_EXIST] = false →
        KE.GetHttpStatusCodeForFault (some (some f)) = 412 ∧
        KE.GetGrpcStatusCodeForFault (some (some f)) = KE.codeFailedPrecondition) := by
  refine ⟨⟨rfl, rfl⟩, ?_, ?_⟩
  · intro fref hp
    constructor <;> simp [KE.GetHttpStatusCodeForFault, KE.GetGrpcStatusCodeForFault, hp]
  · intro f hp hk
    have hkinds : KE.ConstraintViolationFault ≠ KE.AuthenticationFault ∧
        KE.ConstraintViolationFault ≠ KE.AuthorizationFault ∧
        KE.ConstraintViolationFault ≠ KE.ResourceNotFoundFault := by
      refine ⟨?_, ?_, ?_⟩ <;> decide
    refine ⟨fun hc => ?_, fun h1 h2 h3 => ?_, fun h1 h2 h3 => ?_⟩
    · rcases hc with hc | hc <;>
      constructor <;>
      simp [KE.GetHttpStatusCodeForFault, KE.GetGrpcStatusCodeForFault, KE.IsPublic,
        KE.GetKind, hp, hk, hkinds.1, hkinds.2.1, hkinds.2.2, hc]
    · constructor <;>
      simp [KE.GetHttpStatusCodeForFault, KE.GetGrpcStatusCodeForFault, KE.IsPublic,
        KE.GetKind, hp, hk, hkinds.1, hkinds.2.1, hkinds.2.2, h1, h2, h3]
    · constructor <;>
      simp [KE.GetHttpStatusCodeForFault, KE.GetGrpcStatusCodeForFault, KE.IsPublic,
        KE.GetKind, hp, hk, hkinds.1, hkinds.2.1, hkinds.2.2, h1, h2, h3]

/-- Witness for C6 at concrete faults: the already-exists refinement, the
bare-kind default and the non-public case. -/
theorem status_mapper_postconditions_witness :
    (KE.GetHttpStatusCodeForFault (some (some c6FaultConflict)) = 409 ∧
     KE.GetGrpcStatusCodeForFault (some (some c6FaultConflict)) = KE.codeAlreadyExists) ∧
    (KE.GetHttpStatusCodeForFault (some (some c6FaultPlain)) = 412 ∧
     KE.GetGrpcStatusCodeForFault (some (some c6FaultPlain)) = KE.codeFailedPrecondition) ∧
    (KE.GetHttpStatusCodeForFault (some (some c6FaultPrivate)) = 500 ∧
     KE.GetGrpcStatusCodeForFault (some (some c6FaultPrivate)) = KE.codeInternal) :=
  ⟨(status_mapper_postconditions.2.2 c6FaultConflict (by decide) (by decide)).1
      (Or.inr (by decide)),
   (status_mapper_postconditions.2.2 c6FaultPlain (by decide) (by decide)).2.2
      (by decide) (by decide) (by decide),
   status_mapper_postconditions.2.1 (some c6FaultPrivate) (by decide)⟩

/-- The public flag of the fault returned by Build is the builder's. -/
@[simp] theorem Build_fst_publicFlag (b : KE.Builder) :
    (KE.Build b).1.publicFlag = b.fault.publicFlag := by
  unfold KE.Build
  cases hL : b.fault.Labels <;> simp [hL] <;> split <;> simp

/-- WithCause does not change the public flag. -/
@[simp] theorem publicFlag_WithCause (b : KE.Builder) (e : Option KE.GoErr) :
    (KE.WithCause b e).fault.publicFlag = b.fault.publicFlag := by
  simp [KE.WithCause]

/-- WithErrorCodes does not touch the fault at all. -/
@[simp] theorem fault_WithErrorCodes (b : KE.Builder) (cs : List String) :
    (KE.WithErrorCodes b cs).fault = b.fault := rfl

/-- WithMessageTemplate does not change the public flag. -/
@[simp] theorem publicFlag_WithMessageTemplate (b : KE.Builder) (m : String) :
    (KE.WithMessageTemplate b m).fault.publicFlag = b.fault.publicFlag := by
  simp [KE.WithMessageTemplate]

/-- WithLabel does not change the public flag. -/
@[simp] theorem publicFlag_WithLabel (b : KE.Builder) (k : String) (v : KE.GoValue) :
    (KE.WithLabel b k v).fault.publicFlag = b.fault.publicFlag := by
  simp only [KE.WithLabel, KE.AddLabel]
  split <;> simp

/-- WithIsRetryable does not change the public flag. -/
@[simp] theorem publicFlag_WithIsRetryable (b : KE.Builder) (flag : Bool) :
    (KE.WithIsRetryable b flag).fault.publicFlag = b.fault.publicFlag := by
  unfold KE.WithIsRetryable
  split <;> simp

/-- WithMessageTemplatesByAudience does not change the public flag. -/
@[simp] theorem publicFlag_WithMessageTemplatesByAudience (b : KE.Builder) (ts : KE.StrMap) :
    (KE.WithMessageTemplatesByAudience b ts).fault.publicFlag = b.fault.publicFlag := by
  unfold KE.WithMessageTemplatesByAudience
  split <;> simp

/-- The label-retention loop does not change the public flag. -/
@[simp] theorem publicFlag_copyNeededLabels (ls : KE.LblMap) (nd : List String)
    (b : KE.Builder) :
    (KE.copyNeededLabels b nd ls).fault.publicFlag = b.fault.publicFlag := by
  induction ls generalizing b with
  | nil => rfl
  | cons p rest ih =>
    show (KE.copyNeededLabels (if p.1 ∈ nd then KE.WithLabel b p.1 p.2 else b) nd rest).fault.publicFlag = _
    rw [ih]
    split <;> simp

/-- Every Fault the converter body returns is public. -/
theorem convBody_public (orig : KE.GoErr) (isF : Bool) (fref : KE.FaultIface)
    (tid : String) (opts : List KE.ConvOption) (g : KE.DFault)
    (hc : KE.convBody orig isF fref tid opts = some (some g)) : g.publicFlag = true := by
  unfold KE.convBody at hc
  dsimp only at hc
  by_cases hinh : (KE.readConvOptions opts).2 = true
  · cases hf : fref with
    | none =>
      rw [hf] at hc
      simp [hinh] at hc
    | some p =>
      rw [hf] at hc
      simp only [hinh, if_true, Option.some_inj] at hc
      subst hc
      rw [Build_fst_publicFlag]
      split_ifs <;>
      simp [KE.NewPublicFaultBuilder, KE.newBlankFault]
  · rw [if_neg hinh] at hc
    simp only [Option.some_inj] at hc
    subst hc
    rw [Build_fst_publicFlag]
    split_ifs <;>
    simp [KE.NewPublicFaultBuilder, KE.newBlankFault]

/-- Every Fault the converter returns is public. -/
theorem conv_result_public (e : KE.GoErr) (tid : String) (opts : List KE.ConvOption)
    (g : KE.DFault)
    (hc : KE.NewPublicFaultFromAnyError (some e) tid opts = some (some g)) :
    g.publicFlag = true := by
  unfold KE.NewPublicFaultFromAnyError at hc
  dsimp only at hc
  by_cases hp : (KE.isFaultB e = true ∧ KE.IsPublic ((KE.faultOf e).getD none) = true)
  · rw [if_pos hp] at hc
    injection hc with h1
    rw [h1] at hp
    exact hp.2
  · rw [if_neg hp] at hc
    exact convBody_public _ _ _ _ _ _ hc

/-- C7: on an error that is already a public Fault the converter returns
exactly that instance, for every transactionId and option list (in this
value model, identity is rendered as equality of the returned fault with
the input fault); consequently conversion is idempotent: converting any
successfully converted result again returns it unchanged. -/
theorem converter_identity_on_public_fault (f : KE.DFault) (tid tid2 : String)
    (opts opts2 : List KE.ConvOption) (hp : f.publicFlag = true) :
    KE.NewPublicFaultFromAnyError (some (KE.GoErr.ktFault (some f))) tid opts
      = some (some f) ∧
    ∀ (e : KE.GoErr) (g : KE.DFault),
      KE.NewPublicFaultFromAnyError (some e) tid2 opts2 = some (some g) →
      KE.NewPublicFaultFromAnyError (some (KE.GoErr.ktFault (some g))) tid opts
        = some (some g) := by
  constructor
  · unfold KE.NewPublicFaultFromAnyError
    dsimp only
    rw [if_pos ⟨rfl, hp⟩]
    rfl
  · intro e g hg
    have hgp : g.publicFlag = true := conv_result_public e tid2 opts2 g hg
    unfold KE.NewPublicFaultFromAnyError
    dsimp only
    rw [if_pos ⟨rfl, hgp⟩]
    rfl

/-- Witness for C7: the converter returns the public fault itself, and
re-converting the result of converting a non-public fault returns that
result unchanged. -/
theorem converter_identity_on_public_fault_witness :
    (c7Fault.publicFlag = true ∧
     KE.NewPublicFaultFromAnyError (some (KE.GoErr.ktFault (some c7Fault))) ("t1")
       [] = some (some c7Fault)) ∧
    ∀ g : KE.DFault,
      KE.NewPublicFaultFromAnyError (some c7Source) ("t2") [] = some (some g) →
      KE.NewPublicFaultFromAnyError (some (KE.GoErr.ktFault (some g))) ("t1") []
        = some (some g) :=
  ⟨⟨rfl, (converter_identity_on_public_fault c7Fault ("t1") ("t2") [] [] rfl).1⟩,
   fun g hg =>
     (converter_identity_on_public_fault c7Fault ("t1") ("t2") [] [] rfl).2 c7Source g hg⟩

/-- Lookup after inserting the same key. -/
theorem mapGetL_insert_self (m : KE.LblMap) (k : String) (v : KE.GoValue) :
    KE.mapGetL (KE.mapInsertL m k v) k = some v := by
  induction m with
  | nil => simp [KE.mapInsertL, KE.mapGetL]
  | cons p rest ih =>
    obtain ⟨k0, v0⟩ := p
    by_cases hk : k0 = k <;> simp [KE.mapInsertL, KE.mapGetL, hk, ih]

/-- Lookup after inserting a different key. -/
theorem mapGetL_insert_ne (m : KE.LblMap) (k k2 : String) (v : KE.GoValue) (h : k ≠ k2) :
    KE.mapGetL (KE.mapInsertL m k v) k2 = KE.mapGetL m k2 := by
  induction m with
  | nil => simp [KE.mapInsertL, KE.mapGetL, h]
  | cons p rest ih =>
    obtain ⟨k0, v0⟩ := p
    by_cases hk : k0 = k
    · subst hk
      simp [KE.mapInsertL, KE.mapGetL, h]
    · simp [KE.mapInsertL, KE.mapGetL, hk, ih]

/-- A key outside the key list looks up to nothing. -/
theorem mapGetL_eq_none_of_not_mem (m : KE.LblMap) (k : String) (h : k ∉ KE.keysL m) :
    KE.mapGetL m k = none := by
  induction m with
  | nil => rfl
  | cons p rest ih =>
    obtain ⟨k0, v0⟩ := p
    simp only [KE.keysL, List.map_cons, List.mem_cons, not_or] at h
    have hk : ¬ k0 = k := fun hc => h.1 hc.symm
    simp only [KE.mapGetL, if_neg hk]
    exact ih (by simpa [KE.keysL] using h.2)

/-- Lookup in a string map after deleting the same key. -/
theorem mapGetS_delete_self (m : KE.StrMap) (k : String) :
    KE.mapGetS (KE.mapDeleteS m k) k = none := by
  induction m with
  | nil => rfl
  | cons p rest ih =>
    obtain ⟨k0, v0⟩ := p
    by_cases hk : k0 = k <;> simp [KE.mapDeleteS, KE.mapGetS, hk, ih]

/-- Lookup in a string map after deleting another key. -/
theorem mapGetS_delete_ne (m : KE.StrMap) (k a : String) (h : a ≠ k) :
    KE.mapGetS (KE.mapDeleteS m k) a = KE.mapGetS m a := by
  induction m with
  | nil => rfl
  | cons p rest ih =>
    obtain ⟨k0, v0⟩ := p
    by_cases hk : k0 = k
    · subst hk
      have hpa : ¬ k0 = a := fun hc => h hc.symm
      simp [KE.mapDeleteS, KE.mapGetS, hpa, ih]
    · by_cases hpa : k0 = a <;> simp [KE.mapDeleteS, KE.mapGetS, hk, hpa, h, ih]

/-- If deleting a key empties the map, every other key was absent. -/
theorem mapGetS_eq_none_of_delete_nil (m : KE.StrMap) (k a : String) (h : a ≠ k)
    (hd : KE.mapDeleteS m k = []) : KE.mapGetS m a = none := by
  rw [← mapGetS_delete_ne m k a h, hd]
  rfl

/-- Deleted keys are a subset of the original keys. -/
theorem keysS_delete_subset (m : KE.StrMap) (k : String) :
    ∀ q, q ∈ KE.keysS (KE.mapDeleteS m k) → q ∈ KE.keysS m := by
  induction m with
  | nil => exact fun q hq => hq
  | cons p rest ih =>
    obtain ⟨k0, v0⟩ := p
    intro q hq
    by_cases hk : k0 = k
    · simp only [KE.mapDeleteS, if_pos hk] at hq
      simp [KE.keysS]
      exact Or.inr (by simpa [KE.keysS] using ih q hq)
    · simp only [KE.mapDeleteS, if_neg hk] at hq
      simp only [KE.keysS, List.map_cons, List.mem_cons] at hq ⊢
      rcases hq with hq | hq
      · exact Or.inl hq
      · exact Or.inr (by simpa [KE.keysS] using ih q (by simpa [KE.keysS] using hq))

/-- Deleting preserves key distinctness. -/
theorem keysS_delete_nodup (m : KE.StrMap) (k : String) (h : (KE.keysS m).Nodup) :
    (KE.keysS (KE.mapDeleteS m k)).Nodup := by
  induction m with
  | nil => exact h
  | cons p rest ih =>
    obtain ⟨k0, v0⟩ := p
    simp only [KE.keysS, List.map_cons, List.nodup_cons] at h
    by_cases hk : k0 = k
    · simpa [KE.mapDeleteS, hk] using ih h.2
    · simp only [KE.mapDeleteS, if_neg hk, KE.keysS, List.map_cons, List.nodup_cons]
      exact ⟨fun hc => h.1 (keysS_delete_subset rest k k0 (by simpa [KE.keysS] using hc)),
        by simpa [KE.keysS] using ih h.2⟩

/-- Lookup after inserting the same key (string maps). -/
theorem mapGetS_insert_self (m : KE.StrMap) (k v : String) :
    KE.mapGetS (KE.mapInsertS m k v) k = some v := by
  induction m with
  | nil => simp [KE.mapInsertS, KE.mapGetS]
  | cons p rest ih =>
    obtain ⟨k0, v0⟩ := p
    by_cases hk : k0 = k <;> simp [KE.mapInsertS, KE.mapGetS, hk, ih]

/-- Lookup after inserting a different key (string maps). -/
theorem mapGetS_insert_ne (m : KE.StrMap) (k k2 v : String) (h : k ≠ k2) :
    KE.mapGetS (KE.mapInsertS m k v) k2 = KE.mapGetS m k2 := by
  induction m with
  | nil => simp [KE.mapInsertS, KE.mapGetS, h]
  | cons p rest ih =>
    obtain ⟨k0, v0⟩ := p
    by_cases hk : k0 = k
    · subst hk
      simp [KE.mapInsertS, KE.mapGetS, h]
    · simp [KE.mapInsertS, KE.mapGetS, hk, ih]

/-- A key outside the key list looks up to nothing (string maps). -/
theorem mapGetS_eq_none_of_not_mem (m : KE.StrMap) (k : String) (h : k ∉ KE.keysS m) :
    KE.mapGetS m k = none := by
  induction m with
  | nil => rfl
  | cons p rest ih =>
    obtain ⟨k0, v0⟩ := p
    simp only [KE.keysS, List.map_cons, List.mem_cons, not_or] at h
    have hk : ¬ k0 = k := fun hc => h.1 hc.symm
    simp only [KE.mapGetS, if_neg hk]
    exact ih (by simpa [KE.keysS] using h.2)

/-- Lookup through maps.Copy is lookup in the source when it hits, else in
the destination, provided the source keys are distinct. -/
theorem mapGetS_copy (src : KE.StrMap) (h : (KE.keysS src).Nodup) :
    ∀ (dst : KE.StrMap) (a : String),
      KE.mapGetS (KE.mapsCopyS dst src) a =
        if (KE.mapGetS src a).isSome then KE.mapGetS src a else KE.mapGetS dst a := by
  induction src with
  | nil => intro dst a; simp [KE.mapsCopyS, KE.mapGetS]
  | cons p rest ih =>
    obtain ⟨k0, v0⟩ := p
    simp only [KE.keysS, List.map_cons, List.nodup_cons] at h
    intro dst a
    have step : KE.mapsCopyS dst ((k0, v0) :: rest) = KE.mapsCopyS (KE.mapInsertS dst k0 v0) rest := rfl
    rw [step, ih h.2]
    by_cases ha : a = k0
    · subst ha
      have hnone : KE.mapGetS rest a = none :=
        mapGetS_eq_none_of_not_mem rest a (by simpa [KE.keysS] using h.1)
      simp [KE.mapGetS, hnone, mapGetS_insert_self]
    · have hk : ¬ k0 = a := fun hc => ha hc.symm
      simp [KE.mapGetS, hk, mapGetS_insert_ne dst k0 a v0 (fun hc => ha hc.symm)]

/-- Lookup through maps.Copy into an empty destination is lookup in the
source. -/
theorem mapGetS_copy_empty (src : KE.StrMap) (a : String) (h : (KE.keysS src).Nodup) :
    KE.mapGetS (KE.mapsCopyS [] src) a = KE.mapGetS src a := by
  rw [mapGetS_copy src h [] a]
  split
  · rfl
  · next hs =>
    cases hc : KE.mapGetS src a with
    | none => rfl
    | some v => exact absurd (by rw [hc]; rfl) hs

/-- Membership in the spec-modelled set add. -/
theorem mem_setAdd (s : List String) (x y : String) :
    y ∈ KE.setAdd s x ↔ y ∈ s ∨ y = x := by
  unfold KE.setAdd
  split
  · next hx =>
    constructor
    · exact Or.inl
    · rintro (hy | rfl)
      · exact hy
      · exact hx
  · simp

/-- Membership in the spec-modelled set add-all. -/
theorem mem_setAddAll (xs : List String) :
    ∀ (s : List String) (y : String), y ∈ KE.setAddAll s xs ↔ y ∈ s ∨ y ∈ xs := by
  induction xs with
  | nil => intro s y; simp [KE.setAddAll]
  | cons x rest ih =>
    intro s y
    have step : KE.setAddAll s (x :: rest) = KE.setAddAll (KE.setAdd s x) rest := rfl
    rw [step, ih (KE.setAdd s x) y, mem_setAdd]
    simp [or_assoc]

/-- Membership in the collected needed-variable set is membership in the
promoted template's variables or in some remaining audience template's
variables. -/
theorem mem_collectNeededVars (rem : KE.StrMap) :
    ∀ (init : List String) (k : String),
      k ∈ rem.foldl (fun acc p => KE.setUnion acc (KE.StringExtractVariableNames p.2)) init ↔
        k ∈ init ∨ ∃ p ∈ rem, k ∈ KE.StringExtractVariableNames p.2 := by
  induction rem with
  | nil => intro init k; simp
  | cons p rest ih =>
    intro init k
    have step : (p :: rest).foldl (fun acc q => KE.setUnion acc (KE.StringExtractVariableNames q.2)) init
        = rest.foldl (fun acc q => KE.setUnion acc (KE.StringExtractVariableNames q.2))
            (KE.setUnion init (KE.StringExtractVariableNames p.2)) := rfl
    rw [step, ih]
    unfold KE.setUnion
    rw [mem_setAddAll]
    constructor
    · rintro ((hk | hk) | ⟨q, hq, hkq⟩)
      · exact Or.inl hk
      · exact Or.inr ⟨p, List.mem_cons_self p rest, hk⟩
      · exact Or.inr ⟨q, List.mem_cons_of_mem p hq, hkq⟩
    · rintro (hk | ⟨q, hq, hkq⟩)
      · exact Or.inl (Or.inl hk)
      · rcases List.mem_cons.mp hq with rfl | hq
        · exact Or.inl (Or.inr hkq)
        · exact Or.inr ⟨q, hq, hkq⟩

/-- WithIsRetryable leaves template, audience map and labels alone. -/
@[simp] theorem fault_parts_WithIsRetryable (b : KE.Builder) (flag : Bool) :
    (KE.WithIsRetryable b flag).fault.MessageTemplate = b.fault.MessageTemplate ∧
    (KE.WithIsRetryable b flag).fault.Aud = b.fault.Aud ∧
    (KE.WithIsRetryable b flag).fault.Labels = b.fault.Labels := by
  unfold KE.WithIsRetryable
  split <;> simp

/-- WithLabel leaves template and audience map alone. -/
@[simp] theorem fault_parts_WithLabel (b : KE.Builder) (k : String) (v : KE.GoValue) :
    (KE.WithLabel b k v).fault.MessageTemplate = b.fault.MessageTemplate ∧
    (KE.WithLabel b k v).fault.Aud = b.fault.Aud := by
  simp only [KE.WithLabel, KE.AddLabel]
  split <;> simp

/-- The label-retention loop leaves template and audience map alone. -/
theorem fault_parts_copyNeededLabels (ls : KE.LblMap) (nd : List String) (b : KE.Builder) :
    (KE.copyNeededLabels b nd ls).fault.MessageTemplate = b.fault.MessageTemplate ∧
    (KE.copyNeededLabels b nd ls).fault.Aud = b.fault.Aud := by
  induction ls generalizing b with
  | nil => exact ⟨rfl, rfl⟩
  | cons p rest ih =>
    show (KE.copyNeededLabels (if p.1 ∈ nd then KE.WithLabel b p.1 p.2 else b) nd rest).fault.MessageTemplate = _ ∧
      (KE.copyNeededLabels (if p.1 ∈ nd then KE.WithLabel b p.1 p.2 else b) nd rest).fault.Aud = _
    rw [(ih _).1, (ih _).2]
    split <;> simp

/-- The labels accumulated by the retention loop, at map level. -/
theorem labels_copyNeededLabels (ls : KE.LblMap) (nd : List String) (b : KE.Builder) :
    (KE.copyNeededLabels b nd ls).fault.Labels.getD []
      = KE.copiedLabels (b.fault.Labels.getD []) nd ls := by
  induction ls generalizing b with
  | nil => rfl
  | cons p rest ih =>
    show (KE.copyNeededLabels (if p.1 ∈ nd then KE.WithLabel b p.1 p.2 else b) nd rest).fault.Labels.getD []
      = KE.copiedLabels (b.fault.Labels.getD []) nd (p :: rest)
    rw [ih]
    show _ = KE.copiedLabels
      (if p.1 ∈ nd ∧ p.1 ≠ "" then KE.mapInsertL (b.fault.Labels.getD []) p.1 p.2
       else b.fault.Labels.getD []) nd rest
    congr 1
    by_cases hnd : p.1 ∈ nd
    · by_cases hemp : p.1 = ""
      · simp [hnd, hemp, KE.WithLabel, KE.AddLabel]
      · simp [hnd, hemp, KE.WithLabel, KE.AddLabel]
    · simp [hnd]

/-- Lookup in the retained-label map: a key found in the source labels and
needed (and non-empty) keeps its source value, anything else falls back to
the initial map. -/
theorem mapGetL_copiedLabels (ls : KE.LblMap) (nd : List String)
    (hnod : (KE.keysL ls).Nodup) :
    ∀ (m0 : KE.LblMap) (k : String),
      KE.mapGetL (KE.copiedLabels m0 nd ls) k =
        if k ∈ nd ∧ k ≠ "" ∧ (KE.mapGetL ls k).isSome then KE.mapGetL ls k
        else KE.mapGetL m0 k := by
  induction ls with
  | nil => intro m0 k; simp [KE.copiedLabels, KE.mapGetL]
  | cons p rest ih =>
    obtain ⟨k0, v0⟩ := p
    simp only [KE.keysL, List.map_cons, List.nodup_cons] at hnod
    intro m0 k
    have step : KE.copiedLabels m0 nd ((k0, v0) :: rest)
        = KE.copiedLabels (if k0 ∈ nd ∧ k0 ≠ "" then KE.mapInsertL m0 k0 v0 else m0) nd rest := rfl
    rw [step, ih hnod.2]
    by_cases hk : k = k0
    · subst hk
      have hrest : KE.mapGetL rest k = none :=
        mapGetL_eq_none_of_not_mem rest k (by simpa [KE.keysL] using hnod.1)
      have hcons : KE.mapGetL ((k, v0) :: rest) k = some v0 := by
        simp [KE.mapGetL]
      rw [hcons, hrest]
      rw [if_neg (fun hc => by simp at hc)]
      by_cases hcond : k ∈ nd ∧ k ≠ ""
      · rw [if_pos hcond, mapGetL_insert_self, if_pos ⟨hcond.1, hcond.2, rfl⟩]
      · rw [if_neg hcond, if_neg (fun hc => hcond ⟨hc.1, hc.2.1⟩)]
    · have hcons : KE.mapGetL ((k0, v0) :: rest) k = KE.mapGetL rest k := by
        have hne : ¬ k0 = k := fun hc => hk hc.symm
        simp [KE.mapGetL, hne]
      rw [hcons]
      by_cases hcond : k0 ∈ nd ∧ k0 ≠ ""
      · rw [if_pos hcond, mapGetL_insert_ne m0 k0 k v0 (fun hc => hk hc.symm)]
      · rw [if_neg hcond]

/-- The fault Build returns keeps the builder's message template. -/
theorem Build_fst_MessageTemplate (b : KE.Builder) :
    (KE.Build b).1.MessageTemplate = b.fault.MessageTemplate := by
  unfold KE.Build
  cases hL : b.fault.Labels <;> simp [hL] <;> split <;> simp

/-- The fault Build returns shares the builder's audience map. -/
theorem Build_fst_Aud (b : KE.Builder) :
    (KE.Build b).1.Aud = b.fault.Aud := by
  unfold KE.Build
  cases hL : b.fault.Labels <;> simp [hL] <;> split <;> simp

/-- The fault Build returns carries (a copy of) the builder's labels. -/
theorem Build_fst_Labels_getD (b : KE.Builder) :
    (KE.Build b).1.Labels.getD [] = b.fault.Labels.getD [] := by
  unfold KE.Build
  cases hL : b.fault.Labels <;> simp [hL, KE.GetLabels] <;> split <;> simp [hL, KE.GetLabels]

/-- For a Fault input, convBody is the plumbed-through composition of the
error-code phase and the tail phase. -/
theorem convBody_eq_tail (df : KE.DFault) (tid : String) (opts : List KE.ConvOption) :
    KE.convBody (.ktFault (some df)) true (some (some df)) tid opts
      = some (some (KE.Build (KE.convTail (KE.convB2 df opts) df tid)).1) := by
  unfold KE.convBody KE.convB2 KE.convTail
  by_cases h2 : (KE.readConvOptions opts).2 = true
  · simp [h2]
  · simp [h2]

/-- On a non-public Fault the converter takes the convBody path. -/
theorem NewPublic_nonpublic_eq (df : KE.DFault) (hpub : df.publicFlag = false)
    (tid : String) (opts : List KE.ConvOption) :
    KE.NewPublicFaultFromAnyError (some (.ktFault (some df))) tid opts
      = some (some (KE.Build (KE.convTail (KE.convB2 df opts) df tid)).1) := by
  have h1 : KE.NewPublicFaultFromAnyError (some (.ktFault (some df))) tid opts
      = if KE.isFaultB (.ktFault (some df)) = true ∧
           KE.IsPublic ((KE.faultOf (.ktFault (some df))).getD none) = true
        then some ((KE.faultOf (.ktFault (some df))).getD none)
        else KE.convBody (.ktFault (some df)) (KE.isFaultB (.ktFault (some df)))
          (KE.faultOf (.ktFault (some df))) tid opts := rfl
  rw [h1, if_neg (fun hc => by simp [KE.IsPublic, KE.faultOf, hpub] at hc)]
  exact convBody_eq_tail df tid opts

/-- The builder state before the transactionId step has nil audience map
and nil labels. -/
theorem convB2_parts (df : KE.DFault) (opts : List KE.ConvOption) :
    (KE.convB2 df opts).fault.Aud = none ∧ (KE.convB2 df opts).fault.Labels = none := by
  unfold KE.convB2
  by_cases h2 : (KE.readConvOptions opts).2 = true <;>
    by_cases hk : KE.GetKind (some df) ∈ (KE.readConvOptions opts).1 <;>
      simp [h2, hk, KE.WithErrorCodes, KE.WithCause, KE.NewPublicFaultBuilder,
        KE.newBlankFault] <;> exact ⟨rfl, rfl⟩

/-- WithMessageTemplatesByAudience leaves template and labels alone. -/
theorem fault_parts_WithMessageTemplatesByAudience (b : KE.Builder) (t : KE.StrMap) :
    (KE.WithMessageTemplatesByAudience b t).fault.MessageTemplate = b.fault.MessageTemplate ∧
    (KE.WithMessageTemplatesByAudience b t).fault.Labels = b.fault.Labels := by
  unfold KE.WithMessageTemplatesByAudience
  split <;> simp

/-- The audience map after merging into a builder whose map is nil. -/
theorem Aud_WithMessageTemplatesByAudience_nil (b : KE.Builder) (t : KE.StrMap)
    (hA : b.fault.Aud = none) :
    (KE.WithMessageTemplatesByAudience b t).fault.Aud.getD []
      = if t.length = 0 then [] else KE.mapsCopyS [] t := by
  by_cases h : t.length = 0
  · simp [KE.WithMessageTemplatesByAudience, h, hA]
  · simp [KE.WithMessageTemplatesByAudience, h, hA]

/-- Once a non-empty user template is present, the tail phase reduces to
the promoted composition. -/
theorem convTail_eq (b : KE.Builder) (df : KE.DFault) (tid ut : String)
    (hut : KE.mapGetS (df.Aud.getD []) KE.MSGAUDIENCE_USER = some ut) (hne : ut ≠ "") :
    KE.convTail b df tid =
      KE.copyNeededLabels
        (KE.WithMessageTemplatesByAudience
          (KE.WithMessageTemplate
            (KE.WithIsRetryable
              (if tid ≠ "" then
                KE.WithLabel (KE.WithMessageTemplate b KE.msgTemplateWithTid) "transactionId"
                  (.str tid)
               else KE.WithMessageTemplate b KE.msgTemplateNoTid)
              df.Retryable)
            ut)
          (KE.mapDeleteS (df.Aud.getD []) KE.MSGAUDIENCE_USER))
        (KE.collectNeededVars ut (KE.mapDeleteS (df.Aud.getD []) KE.MSGAUDIENCE_USER))
        (df.Labels.getD []) := by
  have hlen : ut.length > 0 := by
    cases ut with
    | mk l =>
      cases l with
      | nil => exact absurd rfl hne
      | cons a t => simp [String.length]
  unfold KE.convTail
  dsimp only [KE.GetMessageTemplatesByAudience, KE.IsRetryable, KE.GetLabels]
  rw [hut]
  dsimp only [Option.getD]
  rw [if_pos hlen]

/-- Full specification of the tail phase started from a builder whose
audience map and labels are nil, on a fault carrying a non-empty user
template: the user template is promoted, the user entry is dropped while
the other audiences survive, and the labels are the injected transactionId
label plus the needed originals — with a needed transactionId-keyed
original overwriting the injected value, and an empty-keyed original never
copied. -/
theorem convTail_built_spec (b : KE.Builder) (df : KE.DFault) (tid ut : String)
    (hA : b.fault.Aud = none) (hL : b.fault.Labels = none)
    (hut : KE.mapGetS (df.Aud.getD []) KE.MSGAUDIENCE_USER = some ut)
    (hne : ut ≠ "")
    (hndA : (KE.keysS (df.Aud.getD [])).Nodup)
    (hndL : (KE.keysL (df.Labels.getD [])).Nodup) :
    (KE.Build (KE.convTail b df tid)).1.MessageTemplate = ut ∧
    KE.mapGetS ((KE.Build (KE.convTail b df tid)).1.Aud.getD []) KE.MSGAUDIENCE_USER = none ∧
    (∀ a : String, a ≠ KE.MSGAUDIENCE_USER →
      KE.mapGetS ((KE.Build (KE.convTail b df tid)).1.Aud.getD []) a
        = KE.mapGetS (df.Aud.getD []) a) ∧
    KE.mapGetL ((KE.Build (KE.convTail b df tid)).1.Labels.getD []) "transactionId"
      = (if KE.neededForMessages df ut "transactionId" ∧
            (KE.mapGetL (df.Labels.getD []) "transactionId").isSome = true
         then KE.mapGetL (df.Labels.getD []) "transactionId"
         else if tid = "" then none else some (KE.GoValue.str tid)) ∧
    KE.mapGetL ((KE.Build (KE.convTail b df tid)).1.Labels.getD []) "" = none ∧
    (∀ k : String, k ≠ "transactionId" → k ≠ "" →
      KE.mapGetL ((KE.Build (KE.convTail b df tid)).1.Labels.getD []) k
        = if KE.neededForMessages df ut k then KE.mapGetL (df.Labels.getD []) k else none) := by
  rw [convTail_eq b df tid ut hut hne]
  set b3 := (if tid ≠ "" then
      KE.WithLabel (KE.WithMessageTemplate b KE.msgTemplateWithTid) "transactionId"
        (KE.GoValue.str tid)
    else KE.WithMessageTemplate b KE.msgTemplateNoTid) with hb3def
  set rem := KE.mapDeleteS (df.Aud.getD []) KE.MSGAUDIENCE_USER with hremdef
  set nd := KE.collectNeededVars ut rem with hnddef
  set ls := df.Labels.getD [] with hlsdef
  set B := KE.copyNeededLabels
    (KE.WithMessageTemplatesByAudience
      (KE.WithMessageTemplate (KE.WithIsRetryable b3 df.Retryable) ut) rem) nd ls with hBdef
  have hndR : (KE.keysS rem).Nodup := by
    rw [hremdef]
    exact keysS_delete_nodup _ _ hndA
  have hb3A : b3.fault.Aud = none := by
    rw [hb3def]
    by_cases ht : tid ≠ ""
    · rw [if_pos ht, (fault_parts_WithLabel _ _ _).2]
      simp [KE.WithMessageTemplate, hA]
    · rw [if_neg ht]
      simp [KE.WithMessageTemplate, hA]
  have hb3L : b3.fault.Labels.getD []
      = (if tid = "" then ([] : KE.LblMap) else [("transactionId", KE.GoValue.str tid)]) := by
    rw [hb3def]
    by_cases ht : tid = ""
    · simp [ht, KE.WithMessageTemplate, hL]
    · simp [ht, KE.WithLabel, KE.AddLabel, KE.WithMessageTemplate, hL, KE.mapInsertL]
  have hbcT : (KE.WithMessageTemplatesByAudience
      (KE.WithMessageTemplate (KE.WithIsRetryable b3 df.Retryable) ut) rem).fault.MessageTemplate
      = ut := by
    rw [(fault_parts_WithMessageTemplatesByAudience _ _).1]
    simp [KE.WithMessageTemplate]
  have hbbA : (KE.WithMessageTemplate (KE.WithIsRetryable b3 df.Retryable) ut).fault.Aud
      = none := by
    have h1 : (KE.WithMessageTemplate (KE.WithIsRetryable b3 df.Retryable) ut).fault.Aud
        = (KE.WithIsRetryable b3 df.Retryable).fault.Aud := by
      simp [KE.WithMessageTemplate]
    rw [h1, (fault_parts_WithIsRetryable _ _).2.1, hb3A]
  have hbcA : (KE.WithMessageTemplatesByAudience
      (KE.WithMessageTemplate (KE.WithIsRetryable b3 df.Retryable) ut) rem).fault.Aud.getD []
      = if rem.length = 0 then [] else KE.mapsCopyS [] rem :=
    Aud_WithMessageTemplatesByAudience_nil _ _ hbbA
  have hbcL : (KE.WithMessageTemplatesByAudience
      (KE.WithMessageTemplate (KE.WithIsRetryable b3 df.Retryable) ut) rem).fault.Labels
      = b3.fault.Labels := by
    rw [(fault_parts_WithMessageTemplatesByAudience _ _).2]
    simp [KE.WithMessageTemplate, (fault_parts_WithIsRetryable _ _).2.2]
  have hT : (KE.Build B).1.MessageTemplate = ut := by
    rw [Build_fst_MessageTemplate, hBdef, (fault_parts_copyNeededLabels _ _ _).1, hbcT]
  have hAud : (KE.Build B).1.Aud.getD []
      = (if rem.length = 0 then [] else KE.mapsCopyS [] rem) := by
    rw [Build_fst_Aud, hBdef, (fault_parts_copyNeededLabels _ _ _).2]
    exact hbcA
  have hLab : (KE.Build B).1.Labels.getD []
      = KE.copiedLabels
          (if tid = "" then [] else [("transactionId", KE.GoValue.str tid)]) nd ls := by
    rw [Build_fst_Labels_getD, hBdef, labels_copyNeededLabels, hbcL, hb3L]
  have hmem : ∀ k : String, (k ∈ nd) ↔ KE.neededForMessages df ut k := by
    intro k
    rw [hnddef]
    unfold KE.collectNeededVars
    rw [mem_collectNeededVars, hremdef]
    exact Iff.rfl
  refine ⟨hT, ?_, ?_, ?_, ?_, ?_⟩
  · rw [hAud]
    by_cases h0 : rem.length = 0
    · rw [if_pos h0]
      rfl
    · rw [if_neg h0, mapGetS_copy_empty rem _ hndR, hremdef]
      exact mapGetS_delete_self _ _
  · intro a ha
    rw [hAud]
    by_cases h0 : rem.length = 0
    · rw [if_pos h0]
      have hnone : KE.mapGetS (df.Aud.getD []) a = none := by
        refine mapGetS_eq_none_of_delete_nil _ KE.MSGAUDIENCE_USER a ha ?_
        rw [← hremdef]
        exact List.length_eq_zero.mp h0
      rw [hnone]
      rfl
    · rw [if_neg h0, mapGetS_copy_empty rem a hndR, hremdef]
      exact mapGetS_delete_ne _ _ _ ha
  · rw [hLab, mapGetL_copiedLabels ls nd hndL _ "transactionId"]
    by_cases hc : KE.neededForMessages df ut "transactionId" ∧
        (KE.mapGetL ls "transactionId").isSome = true
    · rw [if_pos ⟨(hmem _).mpr hc.1, by decide, hc.2⟩, if_pos hc]
    · rw [if_neg (fun hx => hc ⟨(hmem _).mp hx.1, hx.2.2⟩), if_neg hc]
      by_cases ht : tid = ""
      · simp [ht, KE.mapGetL]
      · simp [ht, KE.mapGetL]
  · rw [hLab, mapGetL_copiedLabels ls nd hndL _ ""]
    rw [if_neg (fun hx => hx.2.1 rfl)]
    by_cases ht : tid = ""
    · simp [ht, KE.mapGetL]
    · simp [ht, KE.mapGetL]
  · intro k hk hke
    rw [hLab, mapGetL_copiedLabels ls nd hndL _ k]
    have hm0 : KE.mapGetL
        (if tid = "" then [] else [("transactionId", KE.GoValue.str tid)]) k = none := by
      by_cases ht : tid = ""
      · simp [ht, KE.mapGetL]
      · have hne2 : ¬ ("transactionId" : String) = k := fun hc => hk hc.symm
        simp [ht, KE.mapGetL, hne2]
    rw [hm0]
    by_cases hnd2 : KE.neededForMessages df ut k
    · rw [if_pos hnd2]
      by_cases hs : (KE.mapGetL ls k).isSome = true
      · rw [if_pos ⟨(hmem _).mpr hnd2, hke, hs⟩]
      · rw [if_neg (fun hc => hs hc.2.2)]
        cases hcase : KE.mapGetL ls k with
        | none => rfl
        | some v => exact absurd (by rw [hcase]; rfl) hs
    · rw [if_neg hnd2, if_neg (fun hc => hnd2 ((hmem _).mp hc.1))]

/-- C5 counterexample: the claim as stated fails on a reachable input.  A
non-public fault whose user template references a transactionId
placeholder and which itself carries a transactionId label is converted
(with transaction id "t-1") into a fault whose transactionId label holds
the ORIGINAL label value "SECRET": the label-retention loop runs after the
transactionId injection and overwrites it, so the returned labels are not
"the transactionId label plus the needed originals". -/
theorem converter_overwrites_transaction_label :
    ∃ g : KE.DFault,
      KE.NewPublicFaultFromAnyError (some (.ktFault (some c5CexFault))) "t-1" []
        = some (some g) ∧
      KE.mapGetL (g.Labels.getD []) "transactionId" = some (KE.GoValue.str "SECRET") ∧
      ¬ KE.mapGetL (g.Labels.getD []) "transactionId" = some (KE.GoValue.str "t-1") :=
  ⟨(KE.Build (KE.convTail (KE.convB2 c5CexFault []) c5CexFault "t-1")).1,
    NewPublic_nonpublic_eq c5CexFault rfl "t-1" [], by decide, by decide⟩

/-- C5 (amended): applied to a non-public Fault whose distinct-keyed
audience map carries a non-empty template for the reserved user audience,
NewPublicFaultFromAnyError returns a Fault whose default message template
is that user template verbatim (unresolved), whose audience map has no
user entry while every other audience template is kept, and whose labels
are: the transactionId label — holding the ORIGINAL fault's value when the
original carries a transactionId-keyed label referenced by a surviving
template, otherwise the transactionId argument when it is non-empty —
plus, for every other non-empty key, exactly those original labels whose
key is a placeholder of the promoted template or of a remaining audience
template; empty-keyed labels are never carried over. -/
theorem converter_promotes_user_template
    (df : KE.DFault) (tid : String) (opts : List KE.ConvOption) (ut : String)
    (hpub : df.publicFlag = false)
    (hut : KE.mapGetS (df.Aud.getD []) KE.MSGAUDIENCE_USER = some ut)
    (hne : ut ≠ "")
    (hndA : (KE.keysS (df.Aud.getD [])).Nodup)
    (hndL : (KE.keysL (df.Labels.getD [])).Nodup) :
    ∃ g : KE.DFault,
      KE.NewPublicFaultFromAnyError (some (.ktFault (some df))) tid opts = some (some g) ∧
      g.MessageTemplate = ut ∧
      KE.mapGetS (g.Aud.getD []) KE.MSGAUDIENCE_USER = none ∧
      (∀ a : String, a ≠ KE.MSGAUDIENCE_USER →
        KE.mapGetS (g.Aud.getD []) a = KE.mapGetS (df.Aud.getD []) a) ∧
      KE.mapGetL (g.Labels.getD []) "transactionId"
        = (if KE.neededForMessages df ut "transactionId" ∧
              (KE.mapGetL (df.Labels.getD []) "transactionId").isSome = true
           then KE.mapGetL (df.Labels.getD []) "transactionId"
           else if tid = "" then none else some (KE.GoValue.str tid)) ∧
      KE.mapGetL (g.Labels.getD []) "" = none ∧
      (∀ k : String, k ≠ "transactionId" → k ≠ "" →
        KE.mapGetL (g.Labels.getD []) k
          = if KE.neededForMessages df ut k then KE.mapGetL (df.Labels.getD []) k
            else none) := by
  obtain ⟨hA, hL⟩ := convB2_parts df opts
  obtain ⟨h1, h2, h3, h4, h5, h6⟩ :=
    convTail_built_spec (KE.convB2 df opts) df tid ut hA hL hut hne hndA hndL
  exact ⟨_, NewPublic_nonpublic_eq df hpub tid opts, h1, h2, h3, h4, h5, h6⟩

/-- C5 witness: the amended promotion/retention specification applied to
the concrete fault, transaction id "t-1" and no options. -/
theorem converter_promotes_user_template_witness :
    c5Fault.publicFlag = false ∧
    ∃ g : KE.DFault,
      KE.NewPublicFaultFromAnyError (some (.ktFault (some c5Fault))) "t-1" []
        = some (some g) ∧
      g.MessageTemplate = "user msg {x}" ∧
      KE.mapGetS (g.Aud.getD []) KE.MSGAUDIENCE_USER = none ∧
      (∀ a : String, a ≠ KE.MSGAUDIENCE_USER →
        KE.mapGetS (g.Aud.getD []) a = KE.mapGetS (c5Fault.Aud.getD []) a) ∧
      KE.mapGetL (g.Labels.getD []) "transactionId"
        = (if KE.neededForMessages c5Fault "user msg {x}" "transactionId" ∧
              (KE.mapGetL (c5Fault.Labels.getD []) "transactionId").isSome = true
           then KE.mapGetL (c5Fault.Labels.getD []) "transactionId"
           else if "t-1" = "" then none else some (KE.GoValue.str "t-1")) ∧
      KE.mapGetL (g.Labels.getD []) "" = none ∧
      (∀ k : String, k ≠ "transactionId" → k ≠ "" →
        KE.mapGetL (g.Labels.getD []) k
          = if KE.neededForMessages c5Fault "user msg {x}" k then
              KE.mapGetL (c5Fault.Labels.getD []) k
            else none) :=
  ⟨rfl, converter_promotes_user_template c5Fault "t-1" [] "user msg {x}" rfl rfl
    (by decide) (by decide) (by decide)⟩
